import Mathlib

/-!
# Payment third-party service: handlers over the ledger store

A shallow embedding of `server/http_handlers.go`, `database/mongodbstore.go`,
`database/mongodb/mongo.go` and `models/*.go`.

Conventions of the embedding:

* Go `float64` is embedded as IEEE 754 binary64 (`Float64`): a finite value
  is a sign and a magnitude counted in units of `2^-1074`, `+` and `-` are
  exact on the integers of units and then rounded to nearest, ties to even,
  to 53 significant bits, with overflow to infinity, signed zeros and one
  `NaN`; `>` and `<=` compare values and are false on `NaN`.
* An amount of a request is a decoded JSON number, so it is a finite
  `float64` (`Finite64`): `json.Unmarshal` rejects a number out of range and
  JSON has no `NaN` or infinity.  The ledger is written by
  `CreateTransaction` only, so its amounts are of this kind too.
* A Go `error` is embedded as its message (`Error := String`).
* The `database.MongoDBStore` interface is a record of state-passing
  operations over a store state `σ`; the handlers are written against the
  interface, as in the source.
* The Mongo database is two collections kept in insertion order.  `FindOne`
  returns the first matching document, `InsertOne` appends, `UpdateOne`
  rewrites the first matching document.  Whether a driver call errors
  (timeout, network, decode) is an input, `DriverOutcome`; a driver call that
  errors leaves its collection as it was.  Each handler run calls every
  store method at most once, so one outcome per method and run is fully
  general.
* `time.Now().Unix()` is the input `now`.
* Reading and decoding the request body (`io.ReadAll`, `json.Unmarshal`) is
  the input `RequestBody`; the `type` query parameter is `paymentType`.
* For concurrent requests, `PostPaymentHandler.step` cuts the handler at its
  store calls and `interleave` runs two requests on one store under a
  schedule; `steps_eq_handler` shows the steps taken alone are the handler.
-/

namespace ThirdParty

/-! ## float64 -/

/-- A finite `float64`: its sign bit and its magnitude in units of `2^-1074`
(the smallest subnormal), so that the value is `± units * 2^-1074`.  The
magnitudes of `float64` values are those with at most 53 significant bits and
below `2^2098`; `Float64.roundUnits` returns only such magnitudes. -/
structure Finite64 where
  neg : Bool
  units : Nat
  deriving DecidableEq, Repr

/-- A `float64`: finite, an infinity, or `NaN`. -/
inductive Float64 where
  | finite (x : Finite64)
  | inf (neg : Bool)
  | nan
  deriving DecidableEq, Repr

/-- The value of a finite `float64` as a signed number of units. -/
def Finite64.toInt (x : Finite64) : Int :=
  if x.neg then -(x.units : Int) else (x.units : Int)

/-- The finite value `m * 2^-e`, for `e ≤ 1074`, without rounding: a `float64`
when `m * 2^-e` is one, as for every integer `m` up to `2^53` in magnitude.
`dyadic 3 1` is 1.5 and `dyadic 10 0` is 10. -/
def Finite64.dyadic (m : Int) (e : Nat) : Finite64 :=
  ⟨decide (m < 0), m.natAbs <<< (1074 - e)⟩

/-- As `Finite64.dyadic`, at type `Float64`. -/
def Float64.dyadic (m : Int) (e : Nat) : Float64 := .finite (Finite64.dyadic m e)

/-- Binary search for the position of the leading binary digit of `n`: the
greatest `t` in `[lo, lo + 2^steps)` with `2^t ≤ n`, given `2^lo ≤ n` or
`lo = 0`. -/
def log2.search : Nat → Nat → Nat → Nat
  | 0, lo, _ => lo
  | k + 1, lo, n =>
    if n < 1 <<< (lo + 1 <<< k) then log2.search k lo n else log2.search k (lo + 1 <<< k) n

/-- Position of the leading binary digit of `n`, for `0 < n < 2^4096`: the
`t` with `2^t ≤ n < 2^(t+1)`. -/
def log2 (n : Nat) : Nat := log2.search 12 0 n

/-- Round a positive magnitude of `n` units to `float64`, to nearest with ties
to even: below `2^53` it is kept; otherwise the low `drop` digits are rounded
away, leaving 53; a result of `2^2098` units (`2^1024`) or more is an
infinity. -/
def Float64.roundUnits (neg : Bool) (n : Nat) : Float64 :=
  if n < 1 <<< 53 then .finite ⟨neg, n⟩
  else
    let drop := log2 n - 52
    let q := n >>> drop
    let r := n % (1 <<< drop)
    let half := 1 <<< (drop - 1)
    let q1 := if r > half ∨ (r = half ∧ q % 2 = 1) then q + 1 else q
    if q1 <<< drop < 1 <<< 2098 then .finite ⟨neg, q1 <<< drop⟩ else .inf neg

/-- Go `x + y` on `float64`: `NaN` absorbs, infinities of opposite signs give
`NaN`, and a sum that is exactly zero is `-0` when both operands are negative
and `+0` otherwise. -/
def Float64.add : Float64 → Float64 → Float64
  | .nan, _ => .nan
  | _, .nan => .nan
  | .inf a, .inf b => if a = b then .inf a else .nan
  | .inf a, .finite _ => .inf a
  | .finite _, .inf b => .inf b
  | .finite x, .finite y =>
    let s := x.toInt + y.toInt
    if s = 0 then .finite ⟨x.neg && y.neg, 0⟩
    else Float64.roundUnits (decide (s < 0)) s.natAbs

/-- Go `-x` on `float64`. -/
def Float64.neg : Float64 → Float64
  | .nan => .nan
  | .inf a => .inf (!a)
  | .finite x => .finite ⟨!x.neg, x.units⟩

/-- Go `x - y` on `float64`. -/
def Float64.sub (x y : Float64) : Float64 := Float64.add x (Float64.neg y)

/-- Go `x < y` on `float64`. -/
def Float64.lt : Float64 → Float64 → Bool
  | .nan, _ => false
  | _, .nan => false
  | .finite x, .finite y => decide (x.toInt < y.toInt)
  | .finite _, .inf b => !b
  | .inf a, .finite _ => a
  | .inf a, .inf b => a && !b

/-- Go `x <= y` on `float64`. -/
def Float64.le : Float64 → Float64 → Bool
  | .nan, _ => false
  | _, .nan => false
  | .finite x, .finite y => decide (x.toInt ≤ y.toInt)
  | .finite _, .inf b => !b
  | .inf a, .finite _ => a
  | .inf a, .inf b => a || !b

instance : Add Float64 := ⟨Float64.add⟩

instance : Sub Float64 := ⟨Float64.sub⟩

instance : LT Float64 := ⟨fun x y => Float64.lt x y = true⟩

instance : LE Float64 := ⟨fun x y => Float64.le x y = true⟩

instance (x y : Float64) : Decidable (x < y) :=
  inferInstanceAs (Decidable (Float64.lt x y = true))

instance (x y : Float64) : Decidable (x ≤ y) :=
  inferInstanceAs (Decidable (Float64.le x y = true))

/-- The float64 `+0`. -/
instance : OfNat Float64 0 := ⟨.finite ⟨false, 0⟩⟩

/-! ## models -/

/-- Go `error`, by message. -/
abbrev Error := String

/-- Go `models.Account`. -/
structure Account where
  AccountID : String
  Balance : Float64
  CreatedAt : Int
  deriving DecidableEq, Repr

/-- Go `models.TransactionType`. -/
inductive TransactionType where
  | DEBIT
  | CREDIT
  deriving DecidableEq, Repr

/-- Go `models.TransactionStatus`. -/
inductive TransactionStatus where
  | SUCCESS
  | FAILED
  deriving DecidableEq, Repr

/-- Go `models.Transaction` (the field `Type` is `Type_`, `Type` being reserved). -/
structure Transaction where
  Reference : String
  AccountID : String
  Amount : Finite64
  Type_ : TransactionType
  Status : TransactionStatus
  CreatedAt : Int
  deriving DecidableEq, Repr

/-- Go `models.PostPaymentRequestPayload`. -/
structure PostPaymentRequestPayload where
  AccountId : String
  Reference : String
  Amount : Finite64
  deriving DecidableEq, Repr

/-- Go `models.ErrorResponse`. -/
structure ErrorResponse where
  ErrorMessage : String
  deriving DecidableEq, Repr

/-- Go `models.PaymentResponsePayload`. -/
structure PaymentResponsePayload where
  AccountId : String
  Reference : String
  Amount : Finite64
  deriving DecidableEq, Repr

/-! ## net/http and encoding/json -/

def StatusOK : Nat := 200
def StatusBadRequest : Nat := 400
def StatusNotFound : Nat := 404
def StatusInternalServerError : Nat := 500

/-- The JSON documents the handlers write, by their wire fields. -/
inductive JSON where
  | errorObject (errorMessage : String)
  | paymentObject (account_id : String) (reference : String) (amount : Finite64)
  deriving DecidableEq, Repr

/-- The dynamic values passed as `response interface{}`: an `ErrorResponse`
value, a pointer to one, or a `PaymentResponsePayload` value. -/
inductive Response where
  | errorResponse (r : ErrorResponse)
  | errorResponsePtr (r : ErrorResponse)
  | paymentResponsePayload (r : PaymentResponsePayload)
  deriving DecidableEq, Repr

/-- Go `json.Marshal` on a response, following the `json:"..."` tags.  It can
only fail on a float that is `NaN` or infinite, which no amount is. -/
def jsonMarshal : Response → Except Error JSON
  | .errorResponse r => .ok (.errorObject r.ErrorMessage)
  | .errorResponsePtr r => .ok (.errorObject r.ErrorMessage)
  | .paymentResponsePayload r => .ok (.paymentObject r.AccountId r.Reference r.Amount)

/-- Go `http.ResponseWriter` as recorded by `httptest.ResponseRecorder`:
headers, the status code once written, and the chunks written. -/
structure ResponseWriter where
  Header : List (String × String)
  Code : Option Nat
  Body : List JSON
  deriving DecidableEq, Repr

/-- Go `httptest.NewRecorder()`: nothing written yet. -/
def NewRecorder : ResponseWriter := ⟨[], none, []⟩

/-- Go `w.Header().Set(key, value)`. -/
def ResponseWriter.HeaderSet (w : ResponseWriter) (key value : String) : ResponseWriter :=
  { w with Header := (key, value) :: w.Header.filter (fun kv => kv.1 != key) }

/-- Go `w.WriteHeader(code)`: only the first status code counts. -/
def ResponseWriter.WriteHeader (w : ResponseWriter) (code : Nat) : ResponseWriter :=
  match w.Code with
  | some _ => w
  | none => { w with Code := some code }

/-- Go `w.Write(data)`: writes status 200 first when no status was written. -/
def ResponseWriter.Write (w : ResponseWriter) (data : JSON) : ResponseWriter :=
  let w := w.WriteHeader StatusOK
  { w with Body := w.Body ++ [data] }

/-- The request body as the handler sees it after `io.ReadAll` and
`json.Unmarshal`. -/
inductive RequestBody where
  | readError
  | malformed
  | parsed (payload : PostPaymentRequestPayload)
  deriving DecidableEq, Repr

/-! ## database.MongoDBStore -/

/-- The interface `database.MongoDBStore`, over a store state `σ`. -/
structure MongoDBStore (σ : Type) where
  GetAccountByID : String → σ → Except Error Account × σ
  UpdateAccountBalance : String → Float64 → σ → Option Error × σ
  CreateTransaction : Transaction → σ → Option Error × σ
  GetPaymentByReferenceId : String → σ → Except Error Transaction × σ

/-- The Mongo database: the collections `accounts` and `transactions`. -/
structure Database where
  accounts : List Account
  transactions : List Transaction
  deriving DecidableEq, Repr

/-- What each driver call of one handler run does: `none` when the call goes
through, `some e` when it errors with `e`. -/
structure DriverOutcome where
  findAccount : Option Error
  updateAccount : Option Error
  insertTransaction : Option Error
  findTransaction : Option Error
  deriving DecidableEq, Repr

/-- Every driver call goes through. -/
def DriverOutcome.allOk : DriverOutcome := ⟨none, none, none, none⟩

/-- Go `mongo.ErrNoDocuments`. -/
def ErrNoDocuments : Error := "mongo: no documents in result"

/-- Go `collection.FindOne(ctx, filter).Decode(doc)`. -/
def FindOne {α : Type} (coll : List α) (filter : α → Bool) (outcome : Option Error) :
    Except Error α :=
  match outcome with
  | some e => .error e
  | none =>
    match coll.find? filter with
    | some doc => .ok doc
    | none => .error ErrNoDocuments

/-- Go `collection.InsertOne(ctx, doc)`. -/
def InsertOne {α : Type} (coll : List α) (doc : α) (outcome : Option Error) :
    Option Error × List α :=
  match outcome with
  | some e => (some e, coll)
  | none => (none, coll ++ [doc])

/-- The first document matching `filter` rewritten by `update`. -/
def updateFirst {α : Type} (filter : α → Bool) (update : α → α) : List α → List α
  | [] => []
  | d :: ds => if filter d then update d :: ds else d :: updateFirst filter update ds

/-- Go `collection.UpdateOne(ctx, filter, update)`: no match is not an error. -/
def UpdateOne {α : Type} (coll : List α) (filter : α → Bool) (update : α → α)
    (outcome : Option Error) : Option Error × List α :=
  match outcome with
  | some e => (some e, coll)
  | none => (none, updateFirst filter update coll)

/-- Go `(*mongodbStore).GetAccountByID`. -/
def mongodbStore.GetAccountByID (o : DriverOutcome) (accountId : String) (m : Database) :
    Except Error Account × Database :=
  match FindOne m.accounts (fun a => a.AccountID == accountId) o.findAccount with
  | .error err => (.error err, m)
  | .ok account => (.ok account, m)

/-- Go `(*mongodbStore).UpdateAccountBalance`. -/
def mongodbStore.UpdateAccountBalance (o : DriverOutcome) (accountId : String) (amount : Float64)
    (m : Database) : Option Error × Database :=
  match UpdateOne m.accounts (fun a => a.AccountID == accountId)
      (fun a => { a with Balance := amount }) o.updateAccount with
  | (some err, accounts) => (some err, { m with accounts := accounts })
  | (none, accounts) => (none, { m with accounts := accounts })

/-- Go `(*mongodbStore).CreateTransaction`. -/
def mongodbStore.CreateTransaction (o : DriverOutcome) (transaction : Transaction)
    (m : Database) : Option Error × Database :=
  match InsertOne m.transactions transaction o.insertTransaction with
  | (some err, transactions) => (some err, { m with transactions := transactions })
  | (none, transactions) => (none, { m with transactions := transactions })

/-- Go `(*mongodbStore).GetPaymentByReferenceId`. -/
def mongodbStore.GetPaymentByReferenceId (o : DriverOutcome) (reference : String)
    (m : Database) : Except Error Transaction × Database :=
  match FindOne m.transactions (fun t => t.Reference == reference) o.findTransaction with
  | .error err => (.error err, m)
  | .ok transaction => (.ok transaction, m)

/-- Go `mongodb.New`: the Mongo implementation of the store interface. -/
def New (o : DriverOutcome) : MongoDBStore Database where
  GetAccountByID := mongodbStore.GetAccountByID o
  UpdateAccountBalance := mongodbStore.UpdateAccountBalance o
  CreateTransaction := mongodbStore.CreateTransaction o
  GetPaymentByReferenceId := mongodbStore.GetPaymentByReferenceId o

/-- One call on the store interface, with its arguments. -/
inductive Call where
  | GetAccountByID (accountId : String)
  | UpdateAccountBalance (accountId : String) (amount : Float64)
  | CreateTransaction (transaction : Transaction)
  | GetPaymentByReferenceId (referenceId : String)
  deriving DecidableEq, Repr

/-- A store that behaves as `store` and also logs every call made on it, in
order (what the `gomock` controller of the tests checks). -/
def recording {σ : Type} (store : MongoDBStore σ) : MongoDBStore (σ × List Call) where
  GetAccountByID accountId s :=
    let r := store.GetAccountByID accountId s.1
    (r.1, (r.2, s.2 ++ [Call.GetAccountByID accountId]))
  UpdateAccountBalance accountId amount s :=
    let r := store.UpdateAccountBalance accountId amount s.1
    (r.1, (r.2, s.2 ++ [Call.UpdateAccountBalance accountId amount]))
  CreateTransaction transaction s :=
    let r := store.CreateTransaction transaction s.1
    (r.1, (r.2, s.2 ++ [Call.CreateTransaction transaction]))
  GetPaymentByReferenceId referenceId s :=
    let r := store.GetPaymentByReferenceId referenceId s.1
    (r.1, (r.2, s.2 ++ [Call.GetPaymentByReferenceId referenceId]))

/-! ## server.HttpHandler -/

/-- Go `(*HttpHandler).responseWriter`.  The type assertion
`response.(*models.ErrorResponse)` holds only for a pointer. -/
def responseWriter (w : ResponseWriter) (response : Response) (codes : List Nat) :
    ResponseWriter :=
  let statusCode := match codes with
    | c :: _ => c
    | [] => StatusOK
  let statusCode := match response with
    | .errorResponsePtr _ => StatusBadRequest
    | _ => statusCode
  match jsonMarshal response with
  | .error _ => (w.HeaderSet "Content-Type" "application/json").WriteHeader StatusBadRequest
  | .ok data =>
    ((w.HeaderSet "Content-Type" "application/json").WriteHeader statusCode).Write data

/-- Go `(*HttpHandler).PostPaymentHandler`. -/
def PostPaymentHandler {σ : Type} (store : MongoDBStore σ) (now : Int) (paymentType : String)
    (body : RequestBody) (w : ResponseWriter) (s : σ) : ResponseWriter × σ :=
  match body with
  | .readError => (w.WriteHeader StatusBadRequest, s)
  | .malformed => (w.WriteHeader StatusBadRequest, s)
  | .parsed payload =>
    match store.GetAccountByID payload.AccountId s with
    | (.error _, s) =>
      (responseWriter w (.errorResponse ⟨"account not found"⟩) [StatusNotFound], s)
    | (.ok account, s) =>
      if paymentType = "debit" then
        if Float64.finite payload.Amount > account.Balance then
          (responseWriter w (.errorResponse ⟨"insufficient funds"⟩)
            [StatusInternalServerError], s)
        else
          let newBalance := account.Balance - Float64.finite payload.Amount
          let transaction : Transaction :=
            { Reference := payload.Reference
              AccountID := payload.AccountId
              Amount := payload.Amount
              Type_ := .DEBIT
              Status := .SUCCESS
              CreatedAt := now }
          match store.CreateTransaction transaction s with
          | (some _, s) =>
            (responseWriter w (.errorResponse ⟨"error creating transaction record"⟩)
              [StatusInternalServerError], s)
          | (none, s) =>
            match store.UpdateAccountBalance payload.AccountId newBalance s with
            | (some _, s) =>
              (responseWriter w (.errorResponse ⟨"error updating balance"⟩)
                [StatusInternalServerError], s)
            | (none, s) =>
              (responseWriter w (.paymentResponsePayload
                { AccountId := account.AccountID
                  Reference := payload.Reference
                  Amount := payload.Amount }) [], s)
      else if paymentType = "credit" then
        let newBalance := account.Balance + Float64.finite payload.Amount
        let transaction : Transaction :=
          { Reference := payload.Reference
            AccountID := payload.AccountId
            Amount := payload.Amount
            Type_ := .CREDIT
            Status := .SUCCESS
            CreatedAt := now }
        match store.CreateTransaction transaction s with
        | (some _, s) =>
          (responseWriter w (.errorResponse ⟨"error creating transaction record"⟩)
            [StatusInternalServerError], s)
        | (none, s) =>
          match store.UpdateAccountBalance payload.AccountId newBalance s with
          | (some _, s) =>
            (responseWriter w (.errorResponse ⟨"error updating balance"⟩)
              [StatusInternalServerError], s)
          | (none, s) =>
            (responseWriter w (.paymentResponsePayload
              { AccountId := account.AccountID
                Reference := payload.Reference
                Amount := payload.Amount }) [], s)
      else
        (w, s)

/-- Go `(*HttpHandler).GetPaymentHandler`; `reference` is the URL parameter. -/
def GetPaymentHandler {σ : Type} (store : MongoDBStore σ) (reference : String)
    (w : ResponseWriter) (s : σ) : ResponseWriter × σ :=
  match store.GetPaymentByReferenceId reference s with
  | (.error _, s) =>
    (responseWriter w (.errorResponse ⟨"reference not found"⟩) [StatusNotFound], s)
  | (.ok transaction, s) =>
    (responseWriter w (.paymentResponsePayload
      { AccountId := transaction.AccountID
        Reference := transaction.Reference
        Amount := transaction.Amount }) [], s)

/-! ## Serving requests in sequence -/

/-- The `accounts` collection after `$set balance := amount` on the first
account whose `account_id` is `accountId` (what `UpdateAccountBalance` leaves
when the driver call goes through). -/
def setBalance (accounts : List Account) (accountId : String) (amount : Float64) : List Account :=
  updateFirst (fun a => a.AccountID == accountId) (fun a => { a with Balance := amount }) accounts

/-- One `POST /third-party/payments` request as served: the driver outcomes
during it, the clock, the `type` query parameter and the body. -/
structure PostCall where
  outcome : DriverOutcome
  now : Int
  paymentType : String
  body : RequestBody

/-- The store after `PostPaymentHandler` has served the requests one after
another, each on a fresh response writer. -/
def servePosts (s : Database × List Call) : List PostCall → Database × List Call
  | [] => s
  | c :: cs =>
    servePosts (PostPaymentHandler (recording (New c.outcome)) c.now c.paymentType c.body
      NewRecorder s).2 cs

/-! ## PostPaymentHandler between store calls -/

/-- Where a run of `PostPaymentHandler` stands between two store calls: not
started; `GetAccountByID` has returned `account`; `CreateTransaction` has
returned nil and `newBalance` is to be written; returned, with what was
written to the response. -/
inductive Progress where
  | entered
  | accountLoaded (payload : PostPaymentRequestPayload) (account : Account)
  | transactionCreated (payload : PostPaymentRequestPayload) (account : Account)
      (newBalance : Float64)
  | returned (w : ResponseWriter)
  deriving DecidableEq, Repr

/-- One step of `PostPaymentHandler`: the code up to and including its next
store call (read account, insert transaction, write balance), or up to its
return. -/
def PostPaymentHandler.step {σ : Type} (store : MongoDBStore σ) (now : Int)
    (paymentType : String) (body : RequestBody) (w : ResponseWriter) :
    Progress → σ → Progress × σ
  | .entered, s =>
    match body with
    | .readError => (.returned (w.WriteHeader StatusBadRequest), s)
    | .malformed => (.returned (w.WriteHeader StatusBadRequest), s)
    | .parsed payload =>
      match store.GetAccountByID payload.AccountId s with
      | (.error _, s) =>
        (.returned (responseWriter w (.errorResponse ⟨"account not found"⟩) [StatusNotFound]), s)
      | (.ok account, s) => (.accountLoaded payload account, s)
  | .accountLoaded payload account, s =>
    if paymentType = "debit" then
      if Float64.finite payload.Amount > account.Balance then
        (.returned (responseWriter w (.errorResponse ⟨"insufficient funds"⟩)
          [StatusInternalServerError]), s)
      else
        let newBalance := account.Balance - Float64.finite payload.Amount
        let transaction : Transaction :=
          { Reference := payload.Reference
            AccountID := payload.AccountId
            Amount := payload.Amount
            Type_ := .DEBIT
            Status := .SUCCESS
            CreatedAt := now }
        match store.CreateTransaction transaction s with
        | (some _, s) =>
          (.returned (responseWriter w (.errorResponse ⟨"error creating transaction record"⟩)
            [StatusInternalServerError]), s)
        | (none, s) => (.transactionCreated payload account newBalance, s)
    else if paymentType = "credit" then
      let newBalance := account.Balance + Float64.finite payload.Amount
      let transaction : Transaction :=
        { Reference := payload.Reference
          AccountID := payload.AccountId
          Amount := payload.Amount
          Type_ := .CREDIT
          Status := .SUCCESS
          CreatedAt := now }
      match store.CreateTransaction transaction s with
      | (some _, s) =>
        (.returned (responseWriter w (.errorResponse ⟨"error creating transaction record"⟩)
          [StatusInternalServerError]), s)
      | (none, s) => (.transactionCreated payload account newBalance, s)
    else
      (.returned w, s)
  | .transactionCreated payload account newBalance, s =>
    match store.UpdateAccountBalance payload.AccountId newBalance s with
    | (some _, s) =>
      (.returned (responseWriter w (.errorResponse ⟨"error updating balance"⟩)
        [StatusInternalServerError]), s)
    | (none, s) =>
      (.returned (responseWriter w (.paymentResponsePayload
        { AccountId := account.AccountID
          Reference := payload.Reference
          Amount := payload.Amount }) []), s)
  | .returned w1, s => (.returned w1, s)

/-- A run taken alone: the three steps one after another. -/
def PostPaymentHandler.steps {σ : Type} (store : MongoDBStore σ) (now : Int)
    (paymentType : String) (body : RequestBody) (w : ResponseWriter) (s : σ) : Progress × σ :=
  let r1 := PostPaymentHandler.step store now paymentType body w .entered s
  let r2 := PostPaymentHandler.step store now paymentType body w r1.1 r1.2
  PostPaymentHandler.step store now paymentType body w r2.1 r2.2

/-- Which of two concurrent requests takes the next step. -/
inductive Turn where
  | first
  | second
  deriving DecidableEq, Repr

/-- Two `PostPaymentHandler` runs on one store, interleaved step by step as
the schedule says. -/
def interleave (c1 c2 : PostCall) :
    List Turn → (Progress × Progress) × (Database × List Call) →
      (Progress × Progress) × (Database × List Call)
  | [], st => st
  | .first :: schedule, ((p1, p2), s) =>
    let r := PostPaymentHandler.step (recording (New c1.outcome)) c1.now c1.paymentType c1.body
      NewRecorder p1 s
    interleave c1 c2 schedule ((r.1, p2), r.2)
  | .second :: schedule, ((p1, p2), s) =>
    let r := PostPaymentHandler.step (recording (New c2.outcome)) c2.now c2.paymentType c2.body
      NewRecorder p2 s
    interleave c1 c2 schedule ((p1, r.1), r.2)

/-! ## Lemmas on float64 -/

/-- Values of the `float64` operations on some inputs, as the hardware gives
them: `2^53 + 1` is `2^53` and `2^53 + 3` is `2^53 + 4` (ties to even);
`1e16 - 1` is `1e16`; `5.15 - 1.10` is `4.050000000000001`; `100 + 0.1 + 0.1`
is `100.19999999999999`; the largest finite value added to itself is `+Inf`;
`+Inf - +Inf` is `NaN`; `+0 + -0` is `+0` and `-0 + -0` is `-0`; the smallest
subnormal subtracted from itself is `+0`. -/
theorem Float64.examples :
    Float64.dyadic 9007199254740992 0 + Float64.dyadic 1 0 =
      Float64.dyadic 9007199254740992 0 ∧
    Float64.dyadic 9007199254740992 0 + Float64.dyadic 3 0 =
      Float64.dyadic 9007199254740996 0 ∧
    Float64.dyadic 10000000000000000 0 - Float64.dyadic 1 0 =
      Float64.dyadic 10000000000000000 0 ∧
    Float64.dyadic 2899192260119757 49 - Float64.dyadic 2476979795053773 51 =
      Float64.dyadic 1139973655678157 48 ∧
    Float64.dyadic 100 0 + Float64.dyadic 3602879701896397 55 + Float64.dyadic 3602879701896397 55 =
      Float64.dyadic 1762737041650483 44 ∧
    Float64.finite ⟨false, 9007199254740991 <<< 2045⟩ +
        Float64.finite ⟨false, 9007199254740991 <<< 2045⟩ =
      Float64.inf false ∧
    Float64.inf false - Float64.inf false = Float64.nan ∧
    Float64.finite ⟨false, 0⟩ + Float64.finite ⟨true, 0⟩ = Float64.finite ⟨false, 0⟩ ∧
    Float64.finite ⟨true, 0⟩ + Float64.finite ⟨true, 0⟩ = Float64.finite ⟨true, 0⟩ ∧
    Float64.finite ⟨false, 1⟩ - Float64.finite ⟨false, 1⟩ = Float64.finite ⟨false, 0⟩ := by
  refine ⟨by decide, by decide, by decide, by decide, by decide, by decide, by decide,
    by decide, by decide, by decide⟩

theorem Float64.not_gt_of_le {x y : Float64} (h : x ≤ y) : ¬ (x > y) := by
  intro hgt
  change Float64.le x y = true at h
  change Float64.lt y x = true at hgt
  cases x with
  | nan => simp [Float64.le] at h
  | inf a =>
    cases y with
    | nan => simp [Float64.le] at h
    | inf b => cases a <;> cases b <;> simp [Float64.le, Float64.lt] at h hgt
    | finite y => cases a <;> simp [Float64.le, Float64.lt] at h hgt
  | finite x =>
    cases y with
    | nan => simp [Float64.le] at h
    | inf b => cases b <;> simp [Float64.le, Float64.lt] at h hgt
    | finite y =>
      simp only [Float64.le, Float64.lt, decide_eq_true_eq] at h hgt
      omega

theorem Float64.zero_le_finite_iff (x : Finite64) :
    (0 : Float64) ≤ Float64.finite x ↔ 0 ≤ x.toInt := by
  change Float64.le (.finite ⟨false, 0⟩) (.finite x) = true ↔ _
  simp [Float64.le, Finite64.toInt]

theorem Float64.zero_le_finite_or_inf (c : Prop) [Decidable c] (m : Nat) :
    (0 : Float64) ≤ (if c then Float64.finite ⟨false, m⟩ else Float64.inf false) := by
  by_cases h : c
  · rw [if_pos h, Float64.zero_le_finite_iff]
    simp [Finite64.toInt]
  · rw [if_neg h]
    decide

theorem Float64.roundUnits_nonneg (n : Nat) : (0 : Float64) ≤ Float64.roundUnits false n := by
  unfold Float64.roundUnits
  by_cases h : n < 1 <<< 53
  · rw [if_pos h, Float64.zero_le_finite_iff]
    simp [Finite64.toInt]
  · rw [if_neg h]
    exact Float64.zero_le_finite_or_inf _ _

/-- A sum of two non-negative `float64` values is non-negative. -/
theorem Float64.add_nonneg {x : Float64} {a : Finite64} (hx : (0 : Float64) ≤ x)
    (ha : (0 : Float64) ≤ Float64.finite a) : (0 : Float64) ≤ x + Float64.finite a := by
  cases x with
  | nan => exact absurd hx (by decide)
  | inf b =>
    cases b
    · exact hx
    · exact absurd hx (by decide)
  | finite b =>
    rw [Float64.zero_le_finite_iff] at hx ha
    change (0 : Float64) ≤ Float64.add (.finite b) (.finite a)
    simp only [Float64.add]
    split
    · rw [Float64.zero_le_finite_iff]
      simp [Finite64.toInt]
    · have hs : ¬ (b.toInt + a.toInt < 0) := by omega
      simp only [hs, decide_False]
      exact Float64.roundUnits_nonneg _

/-- A difference that passes the funds check on a non-negative balance is
non-negative. -/
theorem Float64.sub_nonneg {x : Float64} {a : Finite64} (hx : (0 : Float64) ≤ x)
    (ha : ¬ (Float64.finite a > x)) : (0 : Float64) ≤ x - Float64.finite a := by
  cases x with
  | nan => exact absurd hx (by decide)
  | inf b =>
    cases b
    · exact hx
    · exact absurd hx (by decide)
  | finite b =>
    rw [Float64.zero_le_finite_iff] at hx
    have hle : a.toInt ≤ b.toInt := by
      have : ¬ (Float64.lt (.finite b) (.finite a) = true) := ha
      simp only [Float64.lt, decide_eq_true_eq] at this
      omega
    change (0 : Float64) ≤ Float64.add (.finite b) (Float64.neg (.finite a))
    have hneg : (Finite64.mk (!a.neg) a.units).toInt = -a.toInt := by
      cases hn : a.neg <;> simp [Finite64.toInt, hn]
    simp only [Float64.neg, Float64.add, hneg]
    split
    · rw [Float64.zero_le_finite_iff]
      simp [Finite64.toInt]
    · have hs : ¬ (b.toInt + -a.toInt < 0) := by omega
      simp only [hs, decide_False]
      exact Float64.roundUnits_nonneg _

/-- An amount that is zero or negative is at most any non-negative balance. -/
theorem Float64.finite_le_of_nonpos_of_nonneg {a : Finite64} {x : Float64}
    (ha : Float64.finite a ≤ 0) (hx : (0 : Float64) ≤ x) : Float64.finite a ≤ x := by
  cases x with
  | nan => exact absurd hx (by decide)
  | inf b =>
    cases b
    · rfl
    · exact absurd hx (by decide)
  | finite b =>
    rw [Float64.zero_le_finite_iff] at hx
    have ha1 : Float64.le (.finite a) (.finite ⟨false, 0⟩) = true := ha
    change Float64.le (.finite a) (.finite b) = true
    simp only [Float64.le, decide_eq_true_eq, Finite64.toInt] at ha1 ⊢
    simp only [Finite64.toInt] at hx
    simp at ha1
    omega

/-! ## Lemmas on the store -/

theorem getAccount_ok {o : DriverOutcome} {accountId : String} {m m1 : Database}
    {account : Account}
    (h : mongodbStore.GetAccountByID o accountId m = (.ok account, m1)) :
    o.findAccount = none ∧
      m.accounts.find? (fun a => a.AccountID == accountId) = some account ∧ m1 = m := by
  unfold mongodbStore.GetAccountByID FindOne at h
  cases ho : o.findAccount with
  | some e => simp [ho] at h
  | none =>
    cases hf : m.accounts.find? (fun a => a.AccountID == accountId) with
    | none => simp [ho, hf] at h
    | some a =>
      simp [ho, hf] at h
      exact ⟨rfl, by rw [h.1], h.2.symm⟩

theorem getAccount_ok_id {o : DriverOutcome} {accountId : String} {m m1 : Database}
    {account : Account}
    (h : mongodbStore.GetAccountByID o accountId m = (.ok account, m1)) :
    account.AccountID = accountId := by
  have h2 := (getAccount_ok h).2.1
  have := List.find?_some h2
  simpa using this

theorem getAccount_of_find {o : DriverOutcome} {accountId : String} {m : Database}
    {account : Account} (ho : o.findAccount = none)
    (hf : m.accounts.find? (fun a => a.AccountID == accountId) = some account) :
    mongodbStore.GetAccountByID o accountId m = (.ok account, m) := by
  simp [mongodbStore.GetAccountByID, FindOne, ho, hf]

theorem find_updateFirst {α : Type} (p : α → Bool) (f : α → α) (hp : ∀ a, p (f a) = p a) :
    ∀ (l : List α) (a : α), l.find? p = some a → (updateFirst p f l).find? p = some (f a)
  | [], a, h => by simp at h
  | d :: ds, a, h => by
    by_cases hd : p d = true
    · simp [List.find?, hd] at h
      subst h
      simp [updateFirst, hd, List.find?, hp]
    · simp [List.find?, hd] at h
      simp [updateFirst, hd, List.find?]
      exact find_updateFirst p f hp ds a h

theorem updateFirst_updateFirst {α : Type} (p : α → Bool) (f g : α → α)
    (hp : ∀ a, p (f a) = p a) :
    ∀ l : List α, updateFirst p g (updateFirst p f l) = updateFirst p (fun a => g (f a)) l
  | [] => rfl
  | d :: ds => by
    by_cases hd : p d = true
    · simp [updateFirst, hd, hp]
    · simp [updateFirst, hd]
      exact updateFirst_updateFirst p f g hp ds

theorem find_setBalance {accounts : List Account} {accountId : String} {account : Account}
    (amount : Float64)
    (h : accounts.find? (fun a => a.AccountID == accountId) = some account) :
    (setBalance accounts accountId amount).find? (fun a => a.AccountID == accountId) =
      some { account with Balance := amount } := by
  unfold setBalance
  exact find_updateFirst (fun a => a.AccountID == accountId)
    (fun a => { a with Balance := amount }) (fun _ => rfl) accounts account h

theorem setBalance_setBalance (accounts : List Account) (accountId : String) (x y : Float64) :
    setBalance (setBalance accounts accountId x) accountId y = setBalance accounts accountId y := by
  unfold setBalance
  exact updateFirst_updateFirst (fun a => a.AccountID == accountId)
    (fun a => { a with Balance := x }) (fun a => { a with Balance := y }) (fun _ => rfl) accounts

/-- A debit on a found account that passes the funds check, by driver
outcome. -/
theorem post_debit (o : DriverOutcome) (m : Database) (log : List Call) (now : Int)
    (payload : PostPaymentRequestPayload) (account : Account)
    (hacc : mongodbStore.GetAccountByID o payload.AccountId m = (.ok account, m))
    (hle : ¬ (Float64.finite payload.Amount > account.Balance)) :
    PostPaymentHandler (recording (New o)) now "debit" (.parsed payload) NewRecorder (m, log) =
      match o.insertTransaction, o.updateAccount with
      | some _, _ =>
        (⟨[("Content-Type", "application/json")], some 500,
            [.errorObject "error creating transaction record"]⟩,
          (m, log ++ [Call.GetAccountByID payload.AccountId,
            Call.CreateTransaction ⟨payload.Reference, payload.AccountId, payload.Amount,
              .DEBIT, .SUCCESS, now⟩]))
      | none, some _ =>
        (⟨[("Content-Type", "application/json")], some 500,
            [.errorObject "error updating balance"]⟩,
          ({ m with transactions := m.transactions ++ [⟨payload.Reference, payload.AccountId,
              payload.Amount, .DEBIT, .SUCCESS, now⟩] },
           log ++ [Call.GetAccountByID payload.AccountId,
            Call.CreateTransaction ⟨payload.Reference, payload.AccountId, payload.Amount,
              .DEBIT, .SUCCESS, now⟩,
            Call.UpdateAccountBalance payload.AccountId (account.Balance - Float64.finite payload.Amount)]))
      | none, none =>
        (⟨[("Content-Type", "application/json")], some 200,
            [.paymentObject payload.AccountId payload.Reference payload.Amount]⟩,
          ({ accounts := setBalance m.accounts payload.AccountId
                (account.Balance - Float64.finite payload.Amount)
             transactions := m.transactions ++ [⟨payload.Reference, payload.AccountId,
              payload.Amount, .DEBIT, .SUCCESS, now⟩] },
           log ++ [Call.GetAccountByID payload.AccountId,
            Call.CreateTransaction ⟨payload.Reference, payload.AccountId, payload.Amount,
              .DEBIT, .SUCCESS, now⟩,
            Call.UpdateAccountBalance payload.AccountId (account.Balance - Float64.finite payload.Amount)])) := by
  have hid := getAccount_ok_id hacc
  cases hi : o.insertTransaction <;> cases hu : o.updateAccount <;>
  simp [PostPaymentHandler, recording, New, hacc, hle, mongodbStore.CreateTransaction,
    mongodbStore.UpdateAccountBalance, InsertOne, UpdateOne, hi, hu, responseWriter,
    jsonMarshal, ResponseWriter.HeaderSet, ResponseWriter.WriteHeader, ResponseWriter.Write,
    NewRecorder, StatusOK, StatusInternalServerError, hid, setBalance]

/-- A credit on a found account, by driver outcome. -/
theorem post_credit (o : DriverOutcome) (m : Database) (log : List Call) (now : Int)
    (payload : PostPaymentRequestPayload) (account : Account)
    (hacc : mongodbStore.GetAccountByID o payload.AccountId m = (.ok account, m)) :
    PostPaymentHandler (recording (New o)) now "credit" (.parsed payload) NewRecorder (m, log) =
      match o.insertTransaction, o.updateAccount with
      | some _, _ =>
        (⟨[("Content-Type", "application/json")], some 500,
            [.errorObject "error creating transaction record"]⟩,
          (m, log ++ [Call.GetAccountByID payload.AccountId,
            Call.CreateTransaction ⟨payload.Reference, payload.AccountId, payload.Amount,
              .CREDIT, .SUCCESS, now⟩]))
      | none, some _ =>
        (⟨[("Content-Type", "application/json")], some 500,
            [.errorObject "error updating balance"]⟩,
          ({ m with transactions := m.transactions ++ [⟨payload.Reference, payload.AccountId,
              payload.Amount, .CREDIT, .SUCCESS, now⟩] },
           log ++ [Call.GetAccountByID payload.AccountId,
            Call.CreateTransaction ⟨payload.Reference, payload.AccountId, payload.Amount,
              .CREDIT, .SUCCESS, now⟩,
            Call.UpdateAccountBalance payload.AccountId (account.Balance + Float64.finite payload.Amount)]))
      | none, none =>
        (⟨[("Content-Type", "application/json")], some 200,
            [.paymentObject payload.AccountId payload.Reference payload.Amount]⟩,
          ({ accounts := setBalance m.accounts payload.AccountId
                (account.Balance + Float64.finite payload.Amount)
             transactions := m.transactions ++ [⟨payload.Reference, payload.AccountId,
              payload.Amount, .CREDIT, .SUCCESS, now⟩] },
           log ++ [Call.GetAccountByID payload.AccountId,
            Call.CreateTransaction ⟨payload.Reference, payload.AccountId, payload.Amount,
              .CREDIT, .SUCCESS, now⟩,
            Call.UpdateAccountBalance payload.AccountId (account.Balance + Float64.finite payload.Amount)])) := by
  have hid := getAccount_ok_id hacc
  cases hi : o.insertTransaction <;> cases hu : o.updateAccount <;>
  simp [PostPaymentHandler, recording, New, hacc, mongodbStore.CreateTransaction,
    mongodbStore.UpdateAccountBalance, InsertOne, UpdateOne, hi, hu, responseWriter,
    jsonMarshal, ResponseWriter.HeaderSet, ResponseWriter.WriteHeader, ResponseWriter.Write,
    NewRecorder, StatusOK, StatusInternalServerError, hid, setBalance]

/-- A debit on a found account with `Amount > Balance`. -/
theorem post_debit_insufficient (o : DriverOutcome) (m : Database) (log : List Call) (now : Int)
    (payload : PostPaymentRequestPayload) (account : Account)
    (hacc : mongodbStore.GetAccountByID o payload.AccountId m = (.ok account, m))
    (hgt : Float64.finite payload.Amount > account.Balance) :
    PostPaymentHandler (recording (New o)) now "debit" (.parsed payload) NewRecorder (m, log) =
      (⟨[("Content-Type", "application/json")], some 500,
          [.errorObject "insufficient funds"]⟩,
        (m, log ++ [Call.GetAccountByID payload.AccountId])) := by
  simp [PostPaymentHandler, recording, New, hacc, hgt, responseWriter,
    jsonMarshal, ResponseWriter.HeaderSet, ResponseWriter.WriteHeader, ResponseWriter.Write,
    NewRecorder, StatusOK, StatusInternalServerError]

/-- A request whose account lookup errors, whatever the payment type. -/
theorem post_account_error (o : DriverOutcome) (m : Database) (log : List Call) (now : Int)
    (paymentType : String) (payload : PostPaymentRequestPayload) (e : Error)
    (hacc : mongodbStore.GetAccountByID o payload.AccountId m = (.error e, m)) :
    PostPaymentHandler (recording (New o)) now paymentType (.parsed payload) NewRecorder
        (m, log) =
      (⟨[("Content-Type", "application/json")], some 404,
          [.errorObject "account not found"]⟩,
        (m, log ++ [Call.GetAccountByID payload.AccountId])) := by
  simp [PostPaymentHandler, recording, New, hacc, responseWriter,
    jsonMarshal, ResponseWriter.HeaderSet, ResponseWriter.WriteHeader, ResponseWriter.Write,
    NewRecorder, StatusOK, StatusNotFound]

/-- The lookup of a reference in a ledger that holds a transaction with it. -/
theorem get_found (o : DriverOutcome) (m : Database) (log : List Call) (reference : String)
    (t : Transaction) (ho : o.findTransaction = none)
    (hf : m.transactions.find? (fun t => t.Reference == reference) = some t) :
    GetPaymentHandler (recording (New o)) reference NewRecorder (m, log) =
      (⟨[("Content-Type", "application/json")], some 200,
          [.paymentObject t.AccountID t.Reference t.Amount]⟩,
        (m, log ++ [Call.GetPaymentByReferenceId reference])) := by
  simp [GetPaymentHandler, recording, New, mongodbStore.GetPaymentByReferenceId, FindOne, ho, hf,
    responseWriter, jsonMarshal, ResponseWriter.HeaderSet, ResponseWriter.WriteHeader,
    ResponseWriter.Write, NewRecorder, StatusOK]

/-- The lookup of a reference in a ledger that holds no transaction with it. -/
theorem get_not_found (o : DriverOutcome) (m : Database) (log : List Call) (reference : String)
    (hf : m.transactions.find? (fun t => t.Reference == reference) = none) :
    GetPaymentHandler (recording (New o)) reference NewRecorder (m, log) =
      (⟨[("Content-Type", "application/json")], some 404,
          [.errorObject "reference not found"]⟩,
        (m, log ++ [Call.GetPaymentByReferenceId reference])) := by
  cases ho : o.findTransaction <;>
  simp [GetPaymentHandler, recording, New, mongodbStore.GetPaymentByReferenceId, FindOne, ho, hf,
    responseWriter, jsonMarshal, ResponseWriter.HeaderSet, ResponseWriter.WriteHeader,
    ResponseWriter.Write, NewRecorder, StatusOK, StatusNotFound]

theorem getPayment_ok {o : DriverOutcome} {reference : String} {m m1 : Database}
    {t : Transaction}
    (h : mongodbStore.GetPaymentByReferenceId o reference m = (.ok t, m1)) :
    o.findTransaction = none ∧
      m.transactions.find? (fun t => t.Reference == reference) = some t ∧ m1 = m := by
  unfold mongodbStore.GetPaymentByReferenceId FindOne at h
  cases ho : o.findTransaction with
  | some e => simp [ho] at h
  | none =>
    cases hf : m.transactions.find? (fun t => t.Reference == reference) with
    | none => simp [ho, hf] at h
    | some a =>
      simp [ho, hf] at h
      exact ⟨rfl, by rw [h.1], h.2.symm⟩

theorem getAccount_cases (o : DriverOutcome) (accountId : String) (m : Database) :
    (∃ e, mongodbStore.GetAccountByID o accountId m = (.error e, m)) ∨
      (∃ account, mongodbStore.GetAccountByID o accountId m = (.ok account, m)) := by
  unfold mongodbStore.GetAccountByID
  cases FindOne m.accounts (fun a => a.AccountID == accountId) o.findAccount with
  | error e => exact Or.inl ⟨e, rfl⟩
  | ok a => exact Or.inr ⟨a, rfl⟩

/-- A request on a found account whose payment type is neither `debit` nor
`credit`. -/
theorem post_other_kind (o : DriverOutcome) (m : Database) (log : List Call) (now : Int)
    (paymentType : String) (payload : PostPaymentRequestPayload) (account : Account)
    (hacc : mongodbStore.GetAccountByID o payload.AccountId m = (.ok account, m))
    (hd : paymentType ≠ "debit") (hc : paymentType ≠ "credit") :
    PostPaymentHandler (recording (New o)) now paymentType (.parsed payload) NewRecorder
        (m, log) =
      (NewRecorder, (m, log ++ [Call.GetAccountByID payload.AccountId])) := by
  simp [PostPaymentHandler, recording, New, hacc, hd, hc]

/-- A request whose body cannot be read or decoded. -/
theorem post_bad_body (o : DriverOutcome) (m : Database) (log : List Call) (now : Int)
    (paymentType : String) (body : RequestBody) (hb : ∀ payload, body ≠ .parsed payload) :
    PostPaymentHandler (recording (New o)) now paymentType body NewRecorder (m, log) =
      (⟨[], some 400, []⟩, (m, log)) := by
  cases body with
  | readError => rfl
  | malformed => rfl
  | parsed payload => exact absurd rfl (hb payload)

/-- Whatever the payment type, the driver outcomes and the database, the
first store call of a request with a parsed body is the account lookup. -/
theorem post_first_call (o : DriverOutcome) (m : Database) (now : Int) (paymentType : String)
    (payload : PostPaymentRequestPayload) :
    ∃ rest, (PostPaymentHandler (recording (New o)) now paymentType (.parsed payload)
      NewRecorder (m, [])).2.2 = Call.GetAccountByID payload.AccountId :: rest := by
  rcases getAccount_cases o payload.AccountId m with ⟨e, he⟩ | ⟨account, ha⟩
  · rw [post_account_error o m [] now paymentType payload e he]
    exact ⟨[], rfl⟩
  · by_cases hd : paymentType = "debit"
    · subst hd
      by_cases hgt : Float64.finite payload.Amount > account.Balance
      · rw [post_debit_insufficient o m [] now payload account ha hgt]
        exact ⟨[], rfl⟩
      · rw [post_debit o m [] now payload account ha hgt]
        cases o.insertTransaction <;> cases o.updateAccount <;> exact ⟨_, rfl⟩
    · by_cases hc : paymentType = "credit"
      · subst hc
        rw [post_credit o m [] now payload account ha]
        cases o.insertTransaction <;> cases o.updateAccount <;> exact ⟨_, rfl⟩
      · rw [post_other_kind o m [] now paymentType payload account ha hd hc]
        exact ⟨[], rfl⟩

theorem find_append_matching {α : Type} (p : α → Bool) (l : List α) (x : α) (hx : p x = true) :
    ∃ t, (l ++ [x]).find? p = some t ∧ t ∈ l ++ [x] ∧ p t = true := by
  cases h : (l ++ [x]).find? p with
  | none =>
    rw [List.find?_eq_none] at h
    exact absurd hx (h x (by simp))
  | some t => exact ⟨t, rfl, List.mem_of_find?_eq_some h, List.find?_some h⟩

theorem find_append_of_some {α : Type} (p : α → Bool) (l l1 : List α) (t : α)
    (h : l.find? p = some t) : (l ++ l1).find? p = some t := by
  simp [List.find?_append, h]

/-- The ledger after one `PostPaymentHandler` run is the ledger before, or the
ledger before with one `SUCCESS` transaction of the request appended. -/
theorem post_ledger_cases (o : DriverOutcome) (m : Database) (log : List Call) (now : Int)
    (paymentType : String) (body : RequestBody) :
    (PostPaymentHandler (recording (New o)) now paymentType body NewRecorder
        (m, log)).2.1.transactions = m.transactions ∨
      ∃ payload type, body = .parsed payload ∧
        (PostPaymentHandler (recording (New o)) now paymentType body NewRecorder
          (m, log)).2.1.transactions =
          m.transactions ++ [⟨payload.Reference, payload.AccountId, payload.Amount, type,
            .SUCCESS, now⟩] := by
  cases body with
  | readError => exact Or.inl rfl
  | malformed => exact Or.inl rfl
  | parsed payload =>
    rcases getAccount_cases o payload.AccountId m with ⟨e, he⟩ | ⟨account, ha⟩
    · rw [post_account_error o m log now paymentType payload e he]
      exact Or.inl rfl
    · by_cases hd : paymentType = "debit"
      · subst hd
        by_cases hgt : Float64.finite payload.Amount > account.Balance
        · rw [post_debit_insufficient o m log now payload account ha hgt]
          exact Or.inl rfl
        · rw [post_debit o m log now payload account ha hgt]
          cases o.insertTransaction <;> cases o.updateAccount
          · exact Or.inr ⟨payload, .DEBIT, rfl, rfl⟩
          · exact Or.inr ⟨payload, .DEBIT, rfl, rfl⟩
          · exact Or.inl rfl
          · exact Or.inl rfl
      · by_cases hc : paymentType = "credit"
        · subst hc
          rw [post_credit o m log now payload account ha]
          cases o.insertTransaction <;> cases o.updateAccount
          · exact Or.inr ⟨payload, .CREDIT, rfl, rfl⟩
          · exact Or.inr ⟨payload, .CREDIT, rfl, rfl⟩
          · exact Or.inl rfl
          · exact Or.inl rfl
        · rw [post_other_kind o m log now paymentType payload account ha hd hc]
          exact Or.inl rfl

/-- A request answered 200 has appended its transaction to the ledger. -/
theorem post_accepted_ledger (o : DriverOutcome) (m : Database) (log : List Call) (now : Int)
    (paymentType : String) (payload : PostPaymentRequestPayload)
    (hok : (PostPaymentHandler (recording (New o)) now paymentType (.parsed payload) NewRecorder
        (m, log)).1.Code = some 200) :
    ∃ type, (PostPaymentHandler (recording (New o)) now paymentType (.parsed payload)
        NewRecorder (m, log)).2.1.transactions =
      m.transactions ++ [⟨payload.Reference, payload.AccountId, payload.Amount, type,
        .SUCCESS, now⟩] := by
  rcases getAccount_cases o payload.AccountId m with ⟨e, he⟩ | ⟨account, ha⟩
  · rw [post_account_error o m log now paymentType payload e he] at hok
    simp at hok
  · by_cases hd : paymentType = "debit"
    · subst hd
      by_cases hgt : Float64.finite payload.Amount > account.Balance
      · rw [post_debit_insufficient o m log now payload account ha hgt] at hok
        simp at hok
      · rw [post_debit o m log now payload account ha hgt] at hok ⊢
        cases hi : o.insertTransaction <;> cases hu : o.updateAccount <;>
          simp [hi, hu] at hok ⊢
    · by_cases hc : paymentType = "credit"
      · subst hc
        rw [post_credit o m log now payload account ha] at hok ⊢
        cases hi : o.insertTransaction <;> cases hu : o.updateAccount <;>
          simp [hi, hu] at hok ⊢
      · rw [post_other_kind o m log now paymentType payload account ha hd hc] at hok
        simp [NewRecorder] at hok

/-- A transaction found by reference stays the one found after any further
requests are served: lookups return the earliest stored match. -/
theorem servePosts_find_some (reference : String) (t : Transaction) :
    ∀ (cs : List PostCall) (s : Database × List Call),
      s.1.transactions.find? (fun t => t.Reference == reference) = some t →
      (servePosts s cs).1.transactions.find? (fun t => t.Reference == reference) = some t
  | [], _, h => h
  | c :: cs, s, h => by
    apply servePosts_find_some reference t cs
    rcases post_ledger_cases c.outcome s.1 s.2 c.now c.paymentType c.body with hl | ⟨p, ty, _, hl⟩
    · rw [hl]; exact h
    · rw [hl]; exact find_append_of_some _ _ _ _ h

/-- A reference carried by no stored transaction and by none of the requests
served stays unknown to the ledger. -/
theorem servePosts_find_none (reference : String) :
    ∀ (cs : List PostCall) (s : Database × List Call),
      s.1.transactions.find? (fun t => t.Reference == reference) = none →
      (∀ c ∈ cs, ∀ payload, c.body = .parsed payload → payload.Reference ≠ reference) →
      (servePosts s cs).1.transactions.find? (fun t => t.Reference == reference) = none
  | [], _, h, _ => h
  | c :: cs, s, h, hcs => by
    apply servePosts_find_none reference cs
    · rcases post_ledger_cases c.outcome s.1 s.2 c.now c.paymentType c.body with
        hl | ⟨p, ty, hb, hl⟩
      · rw [hl]; exact h
      · rw [hl, List.find?_append, h]
        have hne : (p.Reference == reference) = false :=
          beq_eq_false_iff_ne.mpr (hcs c (List.mem_cons_self _ _) p hb)
        simp [List.find?, hne]
    · exact fun c1 hc1 => hcs c1 (List.mem_cons_of_mem _ hc1)

/-- Taken alone, the three steps are `PostPaymentHandler`. -/
theorem steps_eq_handler {σ : Type} (store : MongoDBStore σ) (now : Int) (paymentType : String)
    (body : RequestBody) (w : ResponseWriter) (s : σ) :
    PostPaymentHandler.steps store now paymentType body w s =
      (.returned (PostPaymentHandler store now paymentType body w s).1,
        (PostPaymentHandler store now paymentType body w s).2) := by
  cases body with
  | readError => rfl
  | malformed => rfl
  | parsed payload =>
    simp only [PostPaymentHandler.steps, PostPaymentHandler.step, PostPaymentHandler]
    rcases hg : store.GetAccountByID payload.AccountId s with ⟨r, s1⟩
    cases r with
    | error e => rfl
    | ok account =>
      simp only [PostPaymentHandler.step]
      by_cases hd : paymentType = "debit"
      · simp only [hd, if_true]
        by_cases hgt : Float64.finite payload.Amount > account.Balance
        · simp only [hgt, if_true, PostPaymentHandler.step]
        · simp only [hgt, if_false]
          rcases hc : store.CreateTransaction ⟨payload.Reference, payload.AccountId,
            payload.Amount, .DEBIT, .SUCCESS, now⟩ s1 with ⟨r2, s2⟩
          cases r2 with
          | some e => rfl
          | none =>
            simp only [PostPaymentHandler.step]
            rcases hu : store.UpdateAccountBalance payload.AccountId
              (account.Balance - Float64.finite payload.Amount) s2 with ⟨r3, s3⟩
            cases r3 <;> rfl
      · simp only [hd, if_false]
        by_cases hcr : paymentType = "credit"
        · simp only [hcr, if_true]
          rcases hc : store.CreateTransaction ⟨payload.Reference, payload.AccountId,
            payload.Amount, .CREDIT, .SUCCESS, now⟩ s1 with ⟨r2, s2⟩
          cases r2 with
          | some e => rfl
          | none =>
            simp only [PostPaymentHandler.step]
            rcases hu : store.UpdateAccountBalance payload.AccountId
              (account.Balance + Float64.finite payload.Amount) s2 with ⟨r3, s3⟩
            cases r3 <;> rfl
        · simp only [hcr, if_false, PostPaymentHandler.step]

/-- The read step on a found account. -/
theorem step_read (o : DriverOutcome) (m : Database) (log : List Call) (now : Int)
    (paymentType : String) (payload : PostPaymentRequestPayload) (account : Account)
    (hacc : mongodbStore.GetAccountByID o payload.AccountId m = (.ok account, m)) :
    PostPaymentHandler.step (recording (New o)) now paymentType (.parsed payload) NewRecorder
        .entered (m, log) =
      (.accountLoaded payload account, (m, log ++ [Call.GetAccountByID payload.AccountId])) := by
  simp [PostPaymentHandler.step, recording, New, hacc]

/-- The insert step of a credit whose driver call goes through. -/
theorem step_insert_credit (o : DriverOutcome) (m : Database) (log : List Call) (now : Int)
    (body : RequestBody) (payload : PostPaymentRequestPayload) (account : Account)
    (hins : o.insertTransaction = none) :
    PostPaymentHandler.step (recording (New o)) now "credit" body NewRecorder
        (.accountLoaded payload account) (m, log) =
      (.transactionCreated payload account (account.Balance + Float64.finite payload.Amount),
        ({ accounts := m.accounts
           transactions := m.transactions ++ [⟨payload.Reference, payload.AccountId,
             payload.Amount, .CREDIT, .SUCCESS, now⟩] },
         log ++ [Call.CreateTransaction ⟨payload.Reference, payload.AccountId,
           payload.Amount, .CREDIT, .SUCCESS, now⟩])) := by
  simp [PostPaymentHandler.step, recording, New, mongodbStore.CreateTransaction, InsertOne, hins]

/-- The write step when the driver call goes through. -/
theorem step_write (o : DriverOutcome) (m : Database) (log : List Call) (now : Int)
    (paymentType : String) (body : RequestBody) (payload : PostPaymentRequestPayload)
    (account : Account) (newBalance : Float64) (hupd : o.updateAccount = none) :
    PostPaymentHandler.step (recording (New o)) now paymentType body NewRecorder
        (.transactionCreated payload account newBalance) (m, log) =
      (.returned ⟨[("Content-Type", "application/json")], some 200,
          [.paymentObject account.AccountID payload.Reference payload.Amount]⟩,
        ({ accounts := setBalance m.accounts payload.AccountId newBalance
           transactions := m.transactions },
         log ++ [Call.UpdateAccountBalance payload.AccountId newBalance])) := by
  simp [PostPaymentHandler.step, recording, New, mongodbStore.UpdateAccountBalance, UpdateOne,
    hupd, responseWriter, jsonMarshal, ResponseWriter.HeaderSet, ResponseWriter.WriteHeader,
    ResponseWriter.Write, NewRecorder, StatusOK, setBalance]

theorem setBalance_nonneg (accountId id : String) (x : Float64) (hx : id = accountId → 0 ≤ x) :
    ∀ accounts : List Account,
      (∀ a ∈ accounts, a.AccountID = accountId → 0 ≤ a.Balance) →
      ∀ a ∈ setBalance accounts id x, a.AccountID = accountId → 0 ≤ a.Balance
  | [], _, a, ha, _ => by simp [setBalance, updateFirst] at ha
  | d :: ds, h, a, ha, haid => by
    unfold setBalance updateFirst at ha
    by_cases hd : (d.AccountID == id) = true
    · rw [if_pos hd] at ha
      rcases List.mem_cons.mp ha with rfl | hmem
      · have hdid : d.AccountID = id := by simpa using hd
        exact hx (hdid.symm.trans haid)
      · exact h a (List.mem_cons_of_mem _ hmem) haid
    · rw [if_neg hd] at ha
      rcases List.mem_cons.mp ha with rfl | hmem
      · exact h a (List.mem_cons_self _ _) haid
      · exact setBalance_nonneg accountId id x hx ds
          (fun b hb => h b (List.mem_cons_of_mem _ hb)) a hmem haid

/-- One `PostPaymentHandler` run keeps the balances of `accountId` and the
balances written to it non-negative, when a credit to it is not negative. -/
theorem post_nonneg (accountId : String) (c : PostCall) (s : Database × List Call)
    (hinv : ∀ a ∈ s.1.accounts, a.AccountID = accountId → 0 ≤ a.Balance)
    (hlog : ∀ x, Call.UpdateAccountBalance accountId x ∈ s.2 → 0 ≤ x)
    (hc : ∀ payload, c.body = .parsed payload → payload.AccountId = accountId →
      c.paymentType = "credit" → (0 : Float64) ≤ Float64.finite payload.Amount) :
    (∀ a ∈ (PostPaymentHandler (recording (New c.outcome)) c.now c.paymentType c.body
        NewRecorder s).2.1.accounts, a.AccountID = accountId → 0 ≤ a.Balance) ∧
    (∀ x, Call.UpdateAccountBalance accountId x ∈
      (PostPaymentHandler (recording (New c.outcome)) c.now c.paymentType c.body
        NewRecorder s).2.2 → 0 ≤ x) := by
  obtain ⟨o, now, paymentType, body⟩ := c
  obtain ⟨m, log⟩ := s
  simp only at hinv hlog hc ⊢
  cases body with
  | readError => exact ⟨hinv, hlog⟩
  | malformed => exact ⟨hinv, hlog⟩
  | parsed payload =>
    rcases getAccount_cases o payload.AccountId m with ⟨e, he⟩ | ⟨account, ha⟩
    · rw [post_account_error o m log now paymentType payload e he]
      exact ⟨hinv, fun x hx => hlog x (by simpa using hx)⟩
    · have hmem : account ∈ m.accounts := List.mem_of_find?_eq_some (getAccount_ok ha).2.1
      have hid : account.AccountID = payload.AccountId := getAccount_ok_id ha
      have hB : payload.AccountId = accountId → 0 ≤ account.Balance :=
        fun h => hinv account hmem (hid.trans h)
      by_cases hd : paymentType = "debit"
      · subst hd
        by_cases hgt : Float64.finite payload.Amount > account.Balance
        · rw [post_debit_insufficient o m log now payload account ha hgt]
          exact ⟨hinv, fun x hx => hlog x (by simpa using hx)⟩
        · have hnew : payload.AccountId = accountId →
              0 ≤ account.Balance - Float64.finite payload.Amount :=
            fun h => Float64.sub_nonneg (hB h) hgt
          rw [post_debit o m log now payload account ha hgt]
          cases o.insertTransaction <;> cases o.updateAccount
          · refine ⟨setBalance_nonneg accountId _ _ hnew m.accounts hinv, fun x hx => ?_⟩
            simp at hx
            rcases hx with hx | ⟨h1, h2⟩
            · exact hlog x hx
            · rw [h2]; exact hnew h1.symm
          · refine ⟨hinv, fun x hx => ?_⟩
            simp at hx
            rcases hx with hx | ⟨h1, h2⟩
            · exact hlog x hx
            · rw [h2]; exact hnew h1.symm
          · exact ⟨hinv, fun x hx => hlog x (by simpa using hx)⟩
          · exact ⟨hinv, fun x hx => hlog x (by simpa using hx)⟩
      · by_cases hcr : paymentType = "credit"
        · subst hcr
          have hnew : payload.AccountId = accountId →
              0 ≤ account.Balance + Float64.finite payload.Amount :=
            fun h => Float64.add_nonneg (hB h) (hc payload rfl h rfl)
          rw [post_credit o m log now payload account ha]
          cases o.insertTransaction <;> cases o.updateAccount
          · refine ⟨setBalance_nonneg accountId _ _ hnew m.accounts hinv, fun x hx => ?_⟩
            simp at hx
            rcases hx with hx | ⟨h1, h2⟩
            · exact hlog x hx
            · rw [h2]; exact hnew h1.symm
          · refine ⟨hinv, fun x hx => ?_⟩
            simp at hx
            rcases hx with hx | ⟨h1, h2⟩
            · exact hlog x hx
            · rw [h2]; exact hnew h1.symm
          · exact ⟨hinv, fun x hx => hlog x (by simpa using hx)⟩
          · exact ⟨hinv, fun x hx => hlog x (by simpa using hx)⟩
        · rw [post_other_kind o m log now paymentType payload account ha hd hcr]
          exact ⟨hinv, fun x hx => hlog x (by simpa using hx)⟩

theorem servePosts_nonneg (accountId : String) :
    ∀ (cs : List PostCall) (s : Database × List Call),
      (∀ a ∈ s.1.accounts, a.AccountID = accountId → 0 ≤ a.Balance) →
      (∀ x, Call.UpdateAccountBalance accountId x ∈ s.2 → 0 ≤ x) →
      (∀ c ∈ cs, ∀ payload, c.body = .parsed payload → payload.AccountId = accountId →
        c.paymentType = "credit" → (0 : Float64) ≤ Float64.finite payload.Amount) →
      (∀ a ∈ (servePosts s cs).1.accounts, a.AccountID = accountId → 0 ≤ a.Balance) ∧
      (∀ x, Call.UpdateAccountBalance accountId x ∈ (servePosts s cs).2 → 0 ≤ x)
  | [], _, hinv, hlog, _ => ⟨hinv, hlog⟩
  | c :: cs, s, hinv, hlog, hcs => by
    have h := post_nonneg accountId c s hinv hlog (hcs c (List.mem_cons_self _ _))
    exact servePosts_nonneg accountId cs _ h.1 h.2
      (fun c1 hc1 => hcs c1 (List.mem_cons_of_mem _ hc1))

/-! ## Claims -/

/-- C1. Debit success: when the store returns an account with balance `B` for
the request's account id, the request is a debit whose amount `A` satisfies
`A ≤ B`, and the insert and the balance update both go through, then
`PostPaymentHandler` responds 200 with the request's
`{account_id, reference, amount}`, makes exactly the calls `GetAccountByID`,
one `CreateTransaction` of the `DEBIT`/`SUCCESS` transaction carrying the
request's reference, account id and amount, and one
`UpdateAccountBalance(account_id, B - A)`, and leaves the ledger with that one
transaction appended and the account's balance set to `B - A`.  `A ≤ B` and
`B - A` are the `float64` comparison and difference. -/
theorem C1_debit_success (o : DriverOutcome) (m : Database) (now : Int)
    (payload : PostPaymentRequestPayload) (account : Account)
    (hacc : mongodbStore.GetAccountByID o payload.AccountId m = (.ok account, m))
    (hins : o.insertTransaction = none) (hupd : o.updateAccount = none)
    (hle : Float64.finite payload.Amount ≤ account.Balance) :
    PostPaymentHandler (recording (New o)) now "debit" (.parsed payload) NewRecorder (m, []) =
      (⟨[("Content-Type", "application/json")], some StatusOK,
          [.paymentObject payload.AccountId payload.Reference payload.Amount]⟩,
        ({ accounts := setBalance m.accounts payload.AccountId
              (account.Balance - Float64.finite payload.Amount)
           transactions := m.transactions ++ [⟨payload.Reference, payload.AccountId,
              payload.Amount, .DEBIT, .SUCCESS, now⟩] },
         [Call.GetAccountByID payload.AccountId,
          Call.CreateTransaction ⟨payload.Reference, payload.AccountId, payload.Amount,
            .DEBIT, .SUCCESS, now⟩,
          Call.UpdateAccountBalance payload.AccountId (account.Balance - Float64.finite payload.Amount)])) ∧
    (setBalance m.accounts payload.AccountId (account.Balance - Float64.finite payload.Amount)).find?
        (fun a => a.AccountID == payload.AccountId) =
      some { account with Balance := account.Balance - Float64.finite payload.Amount } := by
  refine ⟨?_, find_setBalance _ (getAccount_ok hacc).2.1⟩
  rw [post_debit o m [] now payload account hacc (Float64.not_gt_of_le hle), hins, hupd]
  simp [StatusOK]

/-- C1 at balance 10, amount 1.50, reference `ref-001`: the balance written
and stored is 8.50. -/
theorem C1_debit_success_witness :
    PostPaymentHandler (recording (New DriverOutcome.allOk)) 1700000000 "debit"
        (.parsed ⟨"acc_001", "ref-001", .dyadic 3 1⟩) NewRecorder
        (⟨[⟨"acc_001", .dyadic 10 0, 0⟩], []⟩, []) =
      (⟨[("Content-Type", "application/json")], some 200,
          [.paymentObject "acc_001" "ref-001" (.dyadic 3 1)]⟩,
        (⟨[⟨"acc_001", .dyadic 17 1, 0⟩],
          [⟨"ref-001", "acc_001", .dyadic 3 1, .DEBIT, .SUCCESS, 1700000000⟩]⟩,
         [Call.GetAccountByID "acc_001",
          Call.CreateTransaction ⟨"ref-001", "acc_001", .dyadic 3 1, .DEBIT, .SUCCESS, 1700000000⟩,
          Call.UpdateAccountBalance "acc_001" (.dyadic 17 1)])) := by
  have h := (C1_debit_success DriverOutcome.allOk ⟨[⟨"acc_001", .dyadic 10 0, 0⟩], []⟩ 1700000000
    ⟨"acc_001", "ref-001", .dyadic 3 1⟩ ⟨"acc_001", .dyadic 10 0, 0⟩ rfl rfl rfl (by decide)).1
  exact h.trans (by decide)

/-- C2. Credit success: when the store returns an account with balance `B` for
the request's account id, the request is a credit of amount `A`, and the
insert and the balance update both go through, then `PostPaymentHandler`
responds 200 with the request's `{account_id, reference, amount}`, makes
exactly the calls `GetAccountByID`, one `CreateTransaction` of the
`CREDIT`/`SUCCESS` transaction carrying the request's reference, account id
and amount, and one `UpdateAccountBalance(account_id, B + A)`, and leaves the
ledger with that one transaction appended and the account's balance set to
`B + A`, the `float64` sum. -/
theorem C2_credit_success (o : DriverOutcome) (m : Database) (now : Int)
    (payload : PostPaymentRequestPayload) (account : Account)
    (hacc : mongodbStore.GetAccountByID o payload.AccountId m = (.ok account, m))
    (hins : o.insertTransaction = none) (hupd : o.updateAccount = none) :
    PostPaymentHandler (recording (New o)) now "credit" (.parsed payload) NewRecorder (m, []) =
      (⟨[("Content-Type", "application/json")], some StatusOK,
          [.paymentObject payload.AccountId payload.Reference payload.Amount]⟩,
        ({ accounts := setBalance m.accounts payload.AccountId
              (account.Balance + Float64.finite payload.Amount)
           transactions := m.transactions ++ [⟨payload.Reference, payload.AccountId,
              payload.Amount, .CREDIT, .SUCCESS, now⟩] },
         [Call.GetAccountByID payload.AccountId,
          Call.CreateTransaction ⟨payload.Reference, payload.AccountId, payload.Amount,
            .CREDIT, .SUCCESS, now⟩,
          Call.UpdateAccountBalance payload.AccountId (account.Balance + Float64.finite payload.Amount)])) ∧
    (setBalance m.accounts payload.AccountId (account.Balance + Float64.finite payload.Amount)).find?
        (fun a => a.AccountID == payload.AccountId) =
      some { account with Balance := account.Balance + Float64.finite payload.Amount } := by
  refine ⟨?_, find_setBalance _ (getAccount_ok hacc).2.1⟩
  rw [post_credit o m [] now payload account hacc, hins, hupd]
  simp [StatusOK]

/-- C2 at balance 10, amount 1.50: the balance written and stored is 11.50. -/
theorem C2_credit_success_witness :
    PostPaymentHandler (recording (New DriverOutcome.allOk)) 1700000000 "credit"
        (.parsed ⟨"acc_001", "ref-001", .dyadic 3 1⟩) NewRecorder
        (⟨[⟨"acc_001", .dyadic 10 0, 0⟩], []⟩, []) =
      (⟨[("Content-Type", "application/json")], some 200,
          [.paymentObject "acc_001" "ref-001" (.dyadic 3 1)]⟩,
        (⟨[⟨"acc_001", .dyadic 23 1, 0⟩],
          [⟨"ref-001", "acc_001", .dyadic 3 1, .CREDIT, .SUCCESS, 1700000000⟩]⟩,
         [Call.GetAccountByID "acc_001",
          Call.CreateTransaction ⟨"ref-001", "acc_001", .dyadic 3 1, .CREDIT, .SUCCESS, 1700000000⟩,
          Call.UpdateAccountBalance "acc_001" (.dyadic 23 1)])) := by
  have h := (C2_credit_success DriverOutcome.allOk ⟨[⟨"acc_001", .dyadic 10 0, 0⟩], []⟩ 1700000000
    ⟨"acc_001", "ref-001", .dyadic 3 1⟩ ⟨"acc_001", .dyadic 10 0, 0⟩ rfl rfl rfl).1
  exact h.trans (by decide)

/-- C3. Insufficient funds: when the store returns an account with balance `B`
for the request's account id and the request is a debit of amount `A > B`,
`PostPaymentHandler` responds 500 with `{errorMessage: "insufficient funds"}`,
its only store call is the account lookup (no `CreateTransaction`, no
`UpdateAccountBalance`), and the database (balances and ledger) is as it
was. -/
theorem C3_insufficient_funds (o : DriverOutcome) (m : Database) (now : Int)
    (payload : PostPaymentRequestPayload) (account : Account)
    (hacc : mongodbStore.GetAccountByID o payload.AccountId m = (.ok account, m))
    (hgt : Float64.finite payload.Amount > account.Balance) :
    PostPaymentHandler (recording (New o)) now "debit" (.parsed payload) NewRecorder (m, []) =
      (⟨[("Content-Type", "application/json")], some StatusInternalServerError,
          [.errorObject "insufficient funds"]⟩,
        (m, [Call.GetAccountByID payload.AccountId])) := by
  rw [post_debit_insufficient o m [] now payload account hacc hgt]
  simp [StatusInternalServerError]

/-- C3 at balance 1, amount 10. -/
theorem C3_insufficient_funds_witness :
    PostPaymentHandler (recording (New DriverOutcome.allOk)) 1700000000 "debit"
        (.parsed ⟨"acc_001", "ref-001", .dyadic 10 0⟩) NewRecorder
        (⟨[⟨"acc_001", .dyadic 1 0, 0⟩], []⟩, []) =
      (⟨[("Content-Type", "application/json")], some 500,
          [.errorObject "insufficient funds"]⟩,
        (⟨[⟨"acc_001", .dyadic 1 0, 0⟩], []⟩, [Call.GetAccountByID "acc_001"])) :=
  C3_insufficient_funds DriverOutcome.allOk ⟨[⟨"acc_001", .dyadic 1 0, 0⟩], []⟩ 1700000000
    ⟨"acc_001", "ref-001", .dyadic 10 0⟩ ⟨"acc_001", .dyadic 1 0, 0⟩ rfl (by decide)

/-- C4 (as stated) fails: a debit of `-5` and a credit of `0` on an account
with balance 10 are not rejected; each performs the account lookup, the
transaction insert and the balance update, and is answered 200. -/
theorem C4_nonpositive_amount_counterexample :
    (Float64.dyadic (-5) 0 ≤ 0 ∧
      PostPaymentHandler (recording (New DriverOutcome.allOk)) 1700000000 "debit"
          (.parsed ⟨"acc_001", "ref-001", .dyadic (-5) 0⟩) NewRecorder
          (⟨[⟨"acc_001", .dyadic 10 0, 0⟩], []⟩, []) =
        (⟨[("Content-Type", "application/json")], some 200,
            [.paymentObject "acc_001" "ref-001" (.dyadic (-5) 0)]⟩,
          (⟨[⟨"acc_001", .dyadic 15 0, 0⟩],
            [⟨"ref-001", "acc_001", .dyadic (-5) 0, .DEBIT, .SUCCESS, 1700000000⟩]⟩,
           [Call.GetAccountByID "acc_001",
            Call.CreateTransaction
              ⟨"ref-001", "acc_001", .dyadic (-5) 0, .DEBIT, .SUCCESS, 1700000000⟩,
            Call.UpdateAccountBalance "acc_001" (.dyadic 15 0)]))) ∧
    (Float64.dyadic 0 0 ≤ 0 ∧
      PostPaymentHandler (recording (New DriverOutcome.allOk)) 1700000000 "credit"
          (.parsed ⟨"acc_001", "ref-002", .dyadic 0 0⟩) NewRecorder
          (⟨[⟨"acc_001", .dyadic 10 0, 0⟩], []⟩, []) =
        (⟨[("Content-Type", "application/json")], some 200,
            [.paymentObject "acc_001" "ref-002" (.dyadic 0 0)]⟩,
          (⟨[⟨"acc_001", .dyadic 10 0, 0⟩],
            [⟨"ref-002", "acc_001", .dyadic 0 0, .CREDIT, .SUCCESS, 1700000000⟩]⟩,
           [Call.GetAccountByID "acc_001",
            Call.CreateTransaction
              ⟨"ref-002", "acc_001", .dyadic 0 0, .CREDIT, .SUCCESS, 1700000000⟩,
            Call.UpdateAccountBalance "acc_001" (.dyadic 10 0)]))) := by
  refine ⟨⟨by decide, ?_⟩, ⟨by decide, ?_⟩⟩
  · rw [post_debit DriverOutcome.allOk ⟨[⟨"acc_001", .dyadic 10 0, 0⟩], []⟩ [] 1700000000
      ⟨"acc_001", "ref-001", .dyadic (-5) 0⟩ ⟨"acc_001", .dyadic 10 0, 0⟩ rfl (by decide)]
    decide
  · rw [post_credit DriverOutcome.allOk ⟨[⟨"acc_001", .dyadic 10 0, 0⟩], []⟩ [] 1700000000
      ⟨"acc_001", "ref-002", .dyadic 0 0⟩ ⟨"acc_001", .dyadic 10 0, 0⟩ rfl]
    decide

/-- C4 (amended). A request whose amount `A` is zero or negative is not
rejected on its amount.  Whatever the payment type and the store, the handler
first looks the account up.  When the account is found with balance `B` and
both writes go through, a credit is answered 200 after one insert and
`UpdateAccountBalance(account_id, B + A)`, and a debit with `A ≤ B` is
answered 200 after one insert and `UpdateAccountBalance(account_id, B - A)`;
`A ≤ B` holds whenever the balance is not negative.  `B + A` and `B - A` are
the `float64` sum and difference. -/
theorem C4_nonpositive_amount_processed (o : DriverOutcome) (m : Database) (now : Int)
    (payload : PostPaymentRequestPayload) (account : Account)
    (hamt : Float64.finite payload.Amount ≤ 0)
    (hacc : mongodbStore.GetAccountByID o payload.AccountId m = (.ok account, m))
    (hins : o.insertTransaction = none) (hupd : o.updateAccount = none) :
    (∀ (paymentType : String) (o1 : DriverOutcome) (m1 : Database),
      ∃ rest, (PostPaymentHandler (recording (New o1)) now paymentType (.parsed payload)
        NewRecorder (m1, [])).2.2 = Call.GetAccountByID payload.AccountId :: rest) ∧
    PostPaymentHandler (recording (New o)) now "credit" (.parsed payload) NewRecorder (m, []) =
      (⟨[("Content-Type", "application/json")], some StatusOK,
          [.paymentObject payload.AccountId payload.Reference payload.Amount]⟩,
        ({ accounts := setBalance m.accounts payload.AccountId
              (account.Balance + Float64.finite payload.Amount)
           transactions := m.transactions ++ [⟨payload.Reference, payload.AccountId,
              payload.Amount, .CREDIT, .SUCCESS, now⟩] },
         [Call.GetAccountByID payload.AccountId,
          Call.CreateTransaction ⟨payload.Reference, payload.AccountId, payload.Amount,
            .CREDIT, .SUCCESS, now⟩,
          Call.UpdateAccountBalance payload.AccountId
            (account.Balance + Float64.finite payload.Amount)])) ∧
    (Float64.finite payload.Amount ≤ account.Balance →
      PostPaymentHandler (recording (New o)) now "debit" (.parsed payload) NewRecorder (m, []) =
        (⟨[("Content-Type", "application/json")], some StatusOK,
            [.paymentObject payload.AccountId payload.Reference payload.Amount]⟩,
          ({ accounts := setBalance m.accounts payload.AccountId
                (account.Balance - Float64.finite payload.Amount)
             transactions := m.transactions ++ [⟨payload.Reference, payload.AccountId,
                payload.Amount, .DEBIT, .SUCCESS, now⟩] },
           [Call.GetAccountByID payload.AccountId,
            Call.CreateTransaction ⟨payload.Reference, payload.AccountId, payload.Amount,
              .DEBIT, .SUCCESS, now⟩,
            Call.UpdateAccountBalance payload.AccountId
              (account.Balance - Float64.finite payload.Amount)]))) ∧
    ((0 : Float64) ≤ account.Balance → Float64.finite payload.Amount ≤ account.Balance) := by
  refine ⟨fun paymentType o1 m1 => post_first_call o1 m1 now paymentType payload, ?_, ?_,
    fun hB => Float64.finite_le_of_nonpos_of_nonneg hamt hB⟩
  · rw [post_credit o m [] now payload account hacc, hins, hupd]
    simp [StatusOK]
  · intro hle
    rw [post_debit o m [] now payload account hacc (Float64.not_gt_of_le hle), hins, hupd]
    simp [StatusOK]

/-- C4 (amended) at balance 10 and a credit of `-5`: answered 200, one
insert, balance written and stored 5. -/
theorem C4_nonpositive_amount_processed_witness :
    PostPaymentHandler (recording (New DriverOutcome.allOk)) 1700000000 "credit"
        (.parsed ⟨"acc_001", "ref-001", .dyadic (-5) 0⟩) NewRecorder
        (⟨[⟨"acc_001", .dyadic 10 0, 0⟩], []⟩, []) =
      (⟨[("Content-Type", "application/json")], some 200,
          [.paymentObject "acc_001" "ref-001" (.dyadic (-5) 0)]⟩,
        (⟨[⟨"acc_001", .dyadic 5 0, 0⟩],
          [⟨"ref-001", "acc_001", .dyadic (-5) 0, .CREDIT, .SUCCESS, 1700000000⟩]⟩,
         [Call.GetAccountByID "acc_001",
          Call.CreateTransaction
            ⟨"ref-001", "acc_001", .dyadic (-5) 0, .CREDIT, .SUCCESS, 1700000000⟩,
          Call.UpdateAccountBalance "acc_001" (.dyadic 5 0)])) := by
  have h := (C4_nonpositive_amount_processed DriverOutcome.allOk
    ⟨[⟨"acc_001", .dyadic 10 0, 0⟩], []⟩ 1700000000 ⟨"acc_001", "ref-001", .dyadic (-5) 0⟩
    ⟨"acc_001", .dyadic 10 0, 0⟩ (by decide) rfl rfl rfl).2.1
  exact h.trans (by decide)

/-- C5. Account not found: when the account lookup of a request with a parsed
body fails, `PostPaymentHandler` responds 404 with
`{errorMessage: "account not found"}`, whatever the payment type (`debit` and
`credit` included); its only store call is the lookup (no
`CreateTransaction`, no `UpdateAccountBalance`) and the database is as it
was. -/
theorem C5_account_not_found (o : DriverOutcome) (m : Database) (now : Int)
    (paymentType : String) (payload : PostPaymentRequestPayload) (e : Error)
    (hacc : mongodbStore.GetAccountByID o payload.AccountId m = (.error e, m)) :
    PostPaymentHandler (recording (New o)) now paymentType (.parsed payload) NewRecorder
        (m, []) =
      (⟨[("Content-Type", "application/json")], some StatusNotFound,
          [.errorObject "account not found"]⟩,
        (m, [Call.GetAccountByID payload.AccountId])) := by
  rw [post_account_error o m [] now paymentType payload e hacc]
  simp [StatusNotFound]

/-- C5 on a database without the account `acc_001`, for a debit. -/
theorem C5_account_not_found_witness :
    PostPaymentHandler (recording (New DriverOutcome.allOk)) 1700000000 "debit"
        (.parsed ⟨"acc_001", "ref-001", .dyadic 3 1⟩) NewRecorder
        (⟨[⟨"acc_002", .dyadic 10 0, 0⟩], []⟩, []) =
      (⟨[("Content-Type", "application/json")], some 404,
          [.errorObject "account not found"]⟩,
        (⟨[⟨"acc_002", .dyadic 10 0, 0⟩], []⟩, [Call.GetAccountByID "acc_001"])) :=
  C5_account_not_found DriverOutcome.allOk ⟨[⟨"acc_002", .dyadic 10 0, 0⟩], []⟩ 1700000000 "debit"
    ⟨"acc_001", "ref-001", .dyadic 3 1⟩ ErrNoDocuments rfl

/-- C6. Transaction persist failure: on a found account, for a debit with
amount `≤` balance (`type = DEBIT`) or a credit (`type = CREDIT`) whose
`CreateTransaction` call fails, `PostPaymentHandler` responds 500 with
`{errorMessage: "error creating transaction record"}`; its store calls are
the lookup and that one `CreateTransaction`, never `UpdateAccountBalance`,
and the database, so the account's balance, is exactly as before. -/
theorem C6_transaction_persist_failure (o : DriverOutcome) (m : Database) (now : Int)
    (type : TransactionType) (payload : PostPaymentRequestPayload) (account : Account)
    (e : Error)
    (hacc : mongodbStore.GetAccountByID o payload.AccountId m = (.ok account, m))
    (hle : type = .DEBIT → Float64.finite payload.Amount ≤ account.Balance)
    (hins : o.insertTransaction = some e) :
    PostPaymentHandler (recording (New o)) now (if type = .DEBIT then "debit" else "credit")
        (.parsed payload) NewRecorder (m, []) =
      (⟨[("Content-Type", "application/json")], some StatusInternalServerError,
          [.errorObject "error creating transaction record"]⟩,
        (m, [Call.GetAccountByID payload.AccountId,
          Call.CreateTransaction ⟨payload.Reference, payload.AccountId, payload.Amount,
            type, .SUCCESS, now⟩])) ∧
    (∀ amount, Call.UpdateAccountBalance payload.AccountId amount ∉
      (PostPaymentHandler (recording (New o)) now (if type = .DEBIT then "debit" else "credit")
        (.parsed payload) NewRecorder (m, [])).2.2) := by
  have key : PostPaymentHandler (recording (New o)) now
        (if type = .DEBIT then "debit" else "credit") (.parsed payload) NewRecorder (m, []) =
      (⟨[("Content-Type", "application/json")], some StatusInternalServerError,
          [.errorObject "error creating transaction record"]⟩,
        (m, [Call.GetAccountByID payload.AccountId,
          Call.CreateTransaction ⟨payload.Reference, payload.AccountId, payload.Amount,
            type, .SUCCESS, now⟩])) := by
    cases type with
    | DEBIT =>
      rw [if_pos rfl, post_debit o m [] now payload account hacc
        (Float64.not_gt_of_le (hle rfl)), hins]
      simp [StatusInternalServerError]
    | CREDIT =>
      rw [if_neg (by decide), post_credit o m [] now payload account hacc, hins]
      simp [StatusInternalServerError]
  refine ⟨key, fun amount => ?_⟩
  rw [key]
  simp

/-- C6 for a debit of 1.50 on balance 10 with a failing insert. -/
theorem C6_transaction_persist_failure_witness :
    PostPaymentHandler (recording (New ⟨none, none, some "write timeout", none⟩)) 1700000000
        "debit" (.parsed ⟨"acc_001", "ref-001", .dyadic 3 1⟩) NewRecorder
        (⟨[⟨"acc_001", .dyadic 10 0, 0⟩], []⟩, []) =
      (⟨[("Content-Type", "application/json")], some 500,
          [.errorObject "error creating transaction record"]⟩,
        (⟨[⟨"acc_001", .dyadic 10 0, 0⟩], []⟩, [Call.GetAccountByID "acc_001",
          Call.CreateTransaction ⟨"ref-001", "acc_001", .dyadic 3 1, .DEBIT, .SUCCESS,
            1700000000⟩])) :=
  (C6_transaction_persist_failure ⟨none, none, some "write timeout", none⟩
    ⟨[⟨"acc_001", .dyadic 10 0, 0⟩], []⟩ 1700000000 .DEBIT ⟨"acc_001", "ref-001", .dyadic 3 1⟩
    ⟨"acc_001", .dyadic 10 0, 0⟩ "write timeout" rfl (fun _ => by decide) rfl).1

/-- C7. Inconsistency window: on a found account with balance `B`, for a
debit with amount `≤ B` (`type = DEBIT`) or a credit (`type = CREDIT`) whose
insert goes through and whose balance update fails, `PostPaymentHandler`
responds 500 with `{errorMessage: "error updating balance"}`, a message other
than that of a transaction persist failure; afterwards the ledger holds the
inserted `SUCCESS` transaction, a `GetPaymentHandler` lookup of the request's
reference (its driver call going through) is answered 200 with a stored
transaction of that reference, and the account lookup returns the account
with the balance `B` it had before the call. -/
theorem C7_inconsistency_window (o : DriverOutcome) (m : Database) (now : Int)
    (type : TransactionType) (payload : PostPaymentRequestPayload) (account : Account)
    (e : Error)
    (hacc : mongodbStore.GetAccountByID o payload.AccountId m = (.ok account, m))
    (hle : type = .DEBIT → Float64.finite payload.Amount ≤ account.Balance)
    (hins : o.insertTransaction = none) (hupd : o.updateAccount = some e) :
    PostPaymentHandler (recording (New o)) now (if type = .DEBIT then "debit" else "credit")
        (.parsed payload) NewRecorder (m, []) =
      (⟨[("Content-Type", "application/json")], some StatusInternalServerError,
          [.errorObject "error updating balance"]⟩,
        ({ accounts := m.accounts
           transactions := m.transactions ++ [⟨payload.Reference, payload.AccountId,
              payload.Amount, type, .SUCCESS, now⟩] },
         [Call.GetAccountByID payload.AccountId,
          Call.CreateTransaction ⟨payload.Reference, payload.AccountId, payload.Amount,
            type, .SUCCESS, now⟩,
          Call.UpdateAccountBalance payload.AccountId
            (if type = .DEBIT then account.Balance - Float64.finite payload.Amount
              else account.Balance + Float64.finite payload.Amount)])) ∧
    "error updating balance" ≠ "error creating transaction record" ∧
    (∀ o1 : DriverOutcome, o1.findTransaction = none →
      ∃ t, t ∈ m.transactions ++ [⟨payload.Reference, payload.AccountId,
              payload.Amount, type, .SUCCESS, now⟩] ∧
        t.Reference = payload.Reference ∧
        GetPaymentHandler (recording (New o1)) payload.Reference NewRecorder
            ({ accounts := m.accounts
               transactions := m.transactions ++ [⟨payload.Reference, payload.AccountId,
                  payload.Amount, type, .SUCCESS, now⟩] }, []) =
          (⟨[("Content-Type", "application/json")], some StatusOK,
              [.paymentObject t.AccountID t.Reference t.Amount]⟩,
            ({ accounts := m.accounts
               transactions := m.transactions ++ [⟨payload.Reference, payload.AccountId,
                  payload.Amount, type, .SUCCESS, now⟩] },
             [Call.GetPaymentByReferenceId payload.Reference]))) ∧
    mongodbStore.GetAccountByID o payload.AccountId
        { accounts := m.accounts
          transactions := m.transactions ++ [⟨payload.Reference, payload.AccountId,
            payload.Amount, type, .SUCCESS, now⟩] } =
      (.ok account,
        { accounts := m.accounts
          transactions := m.transactions ++ [⟨payload.Reference, payload.AccountId,
            payload.Amount, type, .SUCCESS, now⟩] }) := by
  refine ⟨?_, by decide, fun o1 ho1 => ?_, ?_⟩
  · cases type with
    | DEBIT =>
      rw [if_pos rfl, post_debit o m [] now payload account hacc
        (Float64.not_gt_of_le (hle rfl)), hins, hupd]
      simp [StatusInternalServerError]
    | CREDIT =>
      rw [if_neg (by decide), post_credit o m [] now payload account hacc, hins, hupd]
      simp [StatusInternalServerError]
  · obtain ⟨t, hf, hmem, hp⟩ := find_append_matching
      (fun t : Transaction => t.Reference == payload.Reference) m.transactions
      ⟨payload.Reference, payload.AccountId, payload.Amount, type, .SUCCESS, now⟩ (by simp)
    refine ⟨t, hmem, by simpa using hp, ?_⟩
    rw [get_found o1 _ [] payload.Reference t ho1 hf]
    simp [StatusOK]
  · exact getAccount_of_find (getAccount_ok hacc).1 (getAccount_ok hacc).2.1

/-- C7 for a debit of 1.50 on balance 10 whose balance update fails: the
transaction is in the ledger and the stored balance is still 10. -/
theorem C7_inconsistency_window_witness :
    PostPaymentHandler (recording (New ⟨none, some "write timeout", none, none⟩)) 1700000000
        "debit" (.parsed ⟨"acc_001", "ref-001", .dyadic 3 1⟩) NewRecorder
        (⟨[⟨"acc_001", .dyadic 10 0, 0⟩], []⟩, []) =
      (⟨[("Content-Type", "application/json")], some 500,
          [.errorObject "error updating balance"]⟩,
        (⟨[⟨"acc_001", .dyadic 10 0, 0⟩],
          [⟨"ref-001", "acc_001", .dyadic 3 1, .DEBIT, .SUCCESS, 1700000000⟩]⟩,
         [Call.GetAccountByID "acc_001",
          Call.CreateTransaction ⟨"ref-001", "acc_001", .dyadic 3 1, .DEBIT, .SUCCESS, 1700000000⟩,
          Call.UpdateAccountBalance "acc_001" (.dyadic 17 1)])) := by
  have h := (C7_inconsistency_window ⟨none, some "write timeout", none, none⟩
    ⟨[⟨"acc_001", .dyadic 10 0, 0⟩], []⟩ 1700000000 .DEBIT ⟨"acc_001", "ref-001", .dyadic 3 1⟩
    ⟨"acc_001", .dyadic 10 0, 0⟩ "write timeout" rfl (fun _ => by decide) rfl rfl).1
  exact h.trans (by decide)

/-- C8 (as stated) fails: two credits with the same reference `ref-001`, of
1.50 and then of 2, are both answered 200; the later `GetPaymentHandler`
lookup of `ref-001` is answered with amount 1.50, not the amount 2 submitted
in the second accepted request. -/
theorem C8_post_get_round_trip_counterexample :
    (PostPaymentHandler (recording (New DriverOutcome.allOk)) 1700000000 "credit"
        (.parsed ⟨"acc_001", "ref-001", .dyadic 3 1⟩) NewRecorder
        (⟨[⟨"acc_001", .dyadic 10 0, 0⟩], []⟩, [])).1 =
      ⟨[("Content-Type", "application/json")], some 200,
        [.paymentObject "acc_001" "ref-001" (.dyadic 3 1)]⟩ ∧
    (PostPaymentHandler (recording (New DriverOutcome.allOk)) 1700000001 "credit"
        (.parsed ⟨"acc_001", "ref-001", .dyadic 2 0⟩) NewRecorder
        (servePosts (⟨[⟨"acc_001", .dyadic 10 0, 0⟩], []⟩, [])
          [⟨DriverOutcome.allOk, 1700000000, "credit",
            .parsed ⟨"acc_001", "ref-001", .dyadic 3 1⟩⟩])).1 =
      ⟨[("Content-Type", "application/json")], some 200,
        [.paymentObject "acc_001" "ref-001" (.dyadic 2 0)]⟩ ∧
    (GetPaymentHandler (recording (New DriverOutcome.allOk)) "ref-001" NewRecorder
        (servePosts (⟨[⟨"acc_001", .dyadic 10 0, 0⟩], []⟩, [])
          [⟨DriverOutcome.allOk, 1700000000, "credit", .parsed ⟨"acc_001", "ref-001", .dyadic 3 1⟩⟩,
           ⟨DriverOutcome.allOk, 1700000001, "credit", .parsed ⟨"acc_001", "ref-001", .dyadic 2 0⟩⟩])).1 =
      ⟨[("Content-Type", "application/json")], some 200,
        [.paymentObject "acc_001" "ref-001" (.dyadic 3 1)]⟩ ∧
    JSON.paymentObject "acc_001" "ref-001" (.dyadic 3 1) ≠ JSON.paymentObject "acc_001" "ref-001" (.dyadic 2 0) := by
  refine ⟨by decide, by decide, by decide, by decide⟩

/-- C8 (amended). Over the Mongo store, for every database `m`, reference `r`
and later requests `cs` served in sequence:
(a) when the ledger of `m` holds no transaction with reference `r` and none of
`cs` carries `r`, `GetPaymentHandler(r)` responds 404 with
`{errorMessage: "reference not found"}`;
(b) when the ledger of `m` holds no transaction with reference `r` and a
request with reference `r` is answered 200, then after any later requests
`cs` (further ones with reference `r` included) `GetPaymentHandler(r)`, its
driver call going through, responds 200 with the account id, reference and
amount submitted in that first request;
(c) when the ledger of `m` already holds a transaction with reference `r`,
then after any requests `cs` it responds 200 with the fields of the earliest
such transaction.
The lookup itself leaves the database as it is. -/
theorem C8_post_get_round_trip (m : Database) (reference : String) (cs : List PostCall)
    (o : DriverOutcome) :
    (m.transactions.find? (fun t => t.Reference == reference) = none →
      (∀ c ∈ cs, ∀ payload, c.body = .parsed payload → payload.Reference ≠ reference) →
      GetPaymentHandler (recording (New o)) reference NewRecorder (servePosts (m, []) cs) =
        (⟨[("Content-Type", "application/json")], some StatusNotFound,
            [.errorObject "reference not found"]⟩,
          ((servePosts (m, []) cs).1,
            (servePosts (m, []) cs).2 ++ [Call.GetPaymentByReferenceId reference]))) ∧
    (∀ (c : PostCall) (payload : PostPaymentRequestPayload),
      m.transactions.find? (fun t => t.Reference == reference) = none →
      c.body = .parsed payload → payload.Reference = reference →
      (PostPaymentHandler (recording (New c.outcome)) c.now c.paymentType c.body NewRecorder
        (m, [])).1.Code = some StatusOK →
      o.findTransaction = none →
      GetPaymentHandler (recording (New o)) reference NewRecorder
          (servePosts (m, []) (c :: cs)) =
        (⟨[("Content-Type", "application/json")], some StatusOK,
            [.paymentObject payload.AccountId payload.Reference payload.Amount]⟩,
          ((servePosts (m, []) (c :: cs)).1,
            (servePosts (m, []) (c :: cs)).2 ++ [Call.GetPaymentByReferenceId reference]))) ∧
    (∀ t0 : Transaction,
      m.transactions.find? (fun t => t.Reference == reference) = some t0 →
      o.findTransaction = none →
      GetPaymentHandler (recording (New o)) reference NewRecorder (servePosts (m, []) cs) =
        (⟨[("Content-Type", "application/json")], some StatusOK,
            [.paymentObject t0.AccountID t0.Reference t0.Amount]⟩,
          ((servePosts (m, []) cs).1,
            (servePosts (m, []) cs).2 ++ [Call.GetPaymentByReferenceId reference]))) := by
  refine ⟨fun hnone hcs => ?_, fun c payload hnone hb href hok ho => ?_, fun t0 hf ho => ?_⟩
  · exact get_not_found o (servePosts (m, []) cs).1 (servePosts (m, []) cs).2 reference
      (servePosts_find_none reference cs (m, []) hnone hcs)
  · rw [hb] at hok
    obtain ⟨type, hl⟩ := post_accepted_ledger c.outcome m [] c.now c.paymentType payload hok
    have hfirst : (PostPaymentHandler (recording (New c.outcome)) c.now c.paymentType c.body
        NewRecorder (m, [])).2.1.transactions.find? (fun t => t.Reference == reference) =
        some ⟨payload.Reference, payload.AccountId, payload.Amount, type, .SUCCESS, c.now⟩ := by
      rw [hb, hl, List.find?_append, hnone]
      simp [List.find?, href]
    have h := servePosts_find_some reference _ cs _ hfirst
    exact get_found o (servePosts (m, []) (c :: cs)).1 (servePosts (m, []) (c :: cs)).2
      reference _ ho h
  · exact get_found o (servePosts (m, []) cs).1 (servePosts (m, []) cs).2 reference t0 ho
      (servePosts_find_some reference t0 cs (m, []) hf)

/-- C8 (amended) at a credit of 1.50 with reference `ref-001` on an empty
ledger, followed by a second accepted credit of 2 with the same reference: the
lookup of `ref-001` answers with the first request's fields. -/
theorem C8_post_get_round_trip_witness :
    (GetPaymentHandler (recording (New DriverOutcome.allOk)) "ref-001" NewRecorder
        (servePosts (⟨[⟨"acc_001", .dyadic 10 0, 0⟩], []⟩, [])
          [⟨DriverOutcome.allOk, 1700000000, "credit", .parsed ⟨"acc_001", "ref-001", .dyadic 3 1⟩⟩,
           ⟨DriverOutcome.allOk, 1700000001, "credit", .parsed ⟨"acc_001", "ref-001", .dyadic 2 0⟩⟩])).1 =
      ⟨[("Content-Type", "application/json")], some 200,
        [.paymentObject "acc_001" "ref-001" (.dyadic 3 1)]⟩ :=
  congrArg Prod.fst
    ((C8_post_get_round_trip ⟨[⟨"acc_001", .dyadic 10 0, 0⟩], []⟩ "ref-001"
      [⟨DriverOutcome.allOk, 1700000001, "credit", .parsed ⟨"acc_001", "ref-001", .dyadic 2 0⟩⟩]
      DriverOutcome.allOk).2.1
      ⟨DriverOutcome.allOk, 1700000000, "credit", .parsed ⟨"acc_001", "ref-001", .dyadic 3 1⟩⟩
      ⟨"acc_001", "ref-001", .dyadic 3 1⟩ rfl rfl rfl
      (by
        decide)
      rfl)

/-- C9. GetPayment projection: when the lookups of a reference in two
databases return transactions `t1` and `t2` that agree on account id,
reference and amount (and may differ in type, status and creation time),
`GetPaymentHandler` writes the same response for both, namely status 200 with
`{account_id, reference, amount}` of the transaction, a function of those
three fields only; its single store call is the lookup and the database is
left as it was. -/
theorem C9_get_payment_projection (o1 o2 : DriverOutcome) (m1 m2 : Database)
    (reference : String) (t1 t2 : Transaction)
    (h1 : mongodbStore.GetPaymentByReferenceId o1 reference m1 = (.ok t1, m1))
    (h2 : mongodbStore.GetPaymentByReferenceId o2 reference m2 = (.ok t2, m2))
    (hid : t1.AccountID = t2.AccountID) (href : t1.Reference = t2.Reference)
    (hamt : t1.Amount = t2.Amount) :
    (GetPaymentHandler (recording (New o1)) reference NewRecorder (m1, [])).1 =
      (GetPaymentHandler (recording (New o2)) reference NewRecorder (m2, [])).1 ∧
    GetPaymentHandler (recording (New o1)) reference NewRecorder (m1, []) =
      (⟨[("Content-Type", "application/json")], some StatusOK,
          [.paymentObject t1.AccountID t1.Reference t1.Amount]⟩,
        (m1, [Call.GetPaymentByReferenceId reference])) ∧
    GetPaymentHandler (recording (New o2)) reference NewRecorder (m2, []) =
      (⟨[("Content-Type", "application/json")], some StatusOK,
          [.paymentObject t2.AccountID t2.Reference t2.Amount]⟩,
        (m2, [Call.GetPaymentByReferenceId reference])) := by
  have e1 := get_found o1 m1 [] reference t1 (getPayment_ok h1).1 (getPayment_ok h1).2.1
  have e2 := get_found o2 m2 [] reference t2 (getPayment_ok h2).1 (getPayment_ok h2).2.1
  refine ⟨?_, e1, e2⟩
  rw [e1, e2, hid, href, hamt]

/-- C9 on two ledgers whose transaction `ref-001` differs in type, status and
creation time only. -/
theorem C9_get_payment_projection_witness :
    (GetPaymentHandler (recording (New DriverOutcome.allOk)) "ref-001" NewRecorder
        (⟨[], [⟨"ref-001", "acc_001", .dyadic 3 1, .DEBIT, .SUCCESS, 1700000000⟩]⟩, [])).1 =
      (GetPaymentHandler (recording (New DriverOutcome.allOk)) "ref-001" NewRecorder
        (⟨[], [⟨"ref-001", "acc_001", .dyadic 3 1, .CREDIT, .FAILED, 1800000000⟩]⟩, [])).1 :=
  (C9_get_payment_projection DriverOutcome.allOk DriverOutcome.allOk
    ⟨[], [⟨"ref-001", "acc_001", .dyadic 3 1, .DEBIT, .SUCCESS, 1700000000⟩]⟩
    ⟨[], [⟨"ref-001", "acc_001", .dyadic 3 1, .CREDIT, .FAILED, 1800000000⟩]⟩ "ref-001"
    ⟨"ref-001", "acc_001", .dyadic 3 1, .DEBIT, .SUCCESS, 1700000000⟩
    ⟨"ref-001", "acc_001", .dyadic 3 1, .CREDIT, .FAILED, 1800000000⟩ rfl rfl rfl rfl rfl).1

/-- C10 (as stated) fails in both halves.  Credit: on balance `2^53` a credit
of 1 served twice is accepted twice and leaves two transactions, but each
`float64` addition rounds back to `2^53`, so the balance is `2^53`, not
`B + 2A = 2^53 + 2`.  Debit: a credit of `-5/2` on balance 1 is accepted and
leaves balance `-3/2`; on that account a debit of `A = -1` passes `2A ≤ B`
(`-2 ≤ -3/2`), yet served twice it is rejected both times with "insufficient
funds" (`A > B`), so no transaction is added and the balance stays `-3/2`. -/
theorem C10_no_idempotency_counterexample :
    (servePosts (⟨[⟨"acc_001", .dyadic 9007199254740992 0, 0⟩], []⟩, [])
        [⟨DriverOutcome.allOk, 1700000000, "credit", .parsed ⟨"acc_001", "ref-001", .dyadic 1 0⟩⟩,
         ⟨DriverOutcome.allOk, 1700000001, "credit", .parsed ⟨"acc_001", "ref-001", .dyadic 1 0⟩⟩] =
      (⟨[⟨"acc_001", .dyadic 9007199254740992 0, 0⟩],
        [⟨"ref-001", "acc_001", .dyadic 1 0, .CREDIT, .SUCCESS, 1700000000⟩,
         ⟨"ref-001", "acc_001", .dyadic 1 0, .CREDIT, .SUCCESS, 1700000001⟩]⟩,
       [Call.GetAccountByID "acc_001",
        Call.CreateTransaction ⟨"ref-001", "acc_001", .dyadic 1 0, .CREDIT, .SUCCESS, 1700000000⟩,
        Call.UpdateAccountBalance "acc_001" (.dyadic 9007199254740992 0),
        Call.GetAccountByID "acc_001",
        Call.CreateTransaction ⟨"ref-001", "acc_001", .dyadic 1 0, .CREDIT, .SUCCESS, 1700000001⟩,
        Call.UpdateAccountBalance "acc_001" (.dyadic 9007199254740992 0)]) ∧
      Float64.dyadic 9007199254740992 0 + Float64.dyadic 2 0 =
        Float64.dyadic 9007199254740994 0 ∧
      Float64.dyadic 9007199254740992 0 ≠ Float64.dyadic 9007199254740994 0) ∧
    ((servePosts (⟨[⟨"acc_001", .dyadic 1 0, 0⟩], []⟩, [])
        [⟨DriverOutcome.allOk, 1700000000, "credit",
          .parsed ⟨"acc_001", "ref-000", .dyadic (-5) 1⟩⟩]).1.accounts =
        [⟨"acc_001", .dyadic (-3) 1, 0⟩] ∧
      Float64.dyadic (-2) 0 ≤ Float64.dyadic (-3) 1 ∧
      PostPaymentHandler (recording (New DriverOutcome.allOk)) 1700000001 "debit"
          (.parsed ⟨"acc_001", "ref-001", .dyadic (-1) 0⟩) NewRecorder
          (⟨[⟨"acc_001", .dyadic (-3) 1, 0⟩], []⟩, []) =
        (⟨[("Content-Type", "application/json")], some 500,
            [.errorObject "insufficient funds"]⟩,
          (⟨[⟨"acc_001", .dyadic (-3) 1, 0⟩], []⟩, [Call.GetAccountByID "acc_001"])) ∧
      servePosts (⟨[⟨"acc_001", .dyadic (-3) 1, 0⟩], []⟩, [])
          [⟨DriverOutcome.allOk, 1700000001, "debit",
            .parsed ⟨"acc_001", "ref-001", .dyadic (-1) 0⟩⟩,
           ⟨DriverOutcome.allOk, 1700000002, "debit",
            .parsed ⟨"acc_001", "ref-001", .dyadic (-1) 0⟩⟩] =
        (⟨[⟨"acc_001", .dyadic (-3) 1, 0⟩], []⟩,
          [Call.GetAccountByID "acc_001", Call.GetAccountByID "acc_001"])) := by
  refine ⟨⟨by decide, by decide, by decide⟩, by decide, by decide, by decide, by decide⟩

/-- C10 (amended). No idempotency on reference: on a found account with
balance `B`, the same request of amount `A` and reference `r`, a credit
(`type = CREDIT`) or a debit that passes the funds check both times, `A ≤ B`
and `A ≤ B - A` (`type = DEBIT`), served twice in sequence with the lookups
and writes going through, is answered 200 both times; the second run makes
its own `CreateTransaction` and `UpdateAccountBalance` calls, the ledger gains
two transactions with reference `r`, and the stored balance is `(B + A) + A`
for the credit and `(B - A) - A` for the debit, each `+` and `-` being the
rounded `float64` operation. -/
theorem C10_no_idempotency (o1 o2 : DriverOutcome) (m : Database) (now1 now2 : Int)
    (type : TransactionType) (payload : PostPaymentRequestPayload) (account : Account)
    (hacc : mongodbStore.GetAccountByID o1 payload.AccountId m = (.ok account, m))
    (hw1 : o1.insertTransaction = none ∧ o1.updateAccount = none)
    (hw2 : o2.findAccount = none ∧ o2.insertTransaction = none ∧ o2.updateAccount = none)
    (hle : type = .DEBIT →
      Float64.finite payload.Amount ≤ account.Balance ∧
      Float64.finite payload.Amount ≤ account.Balance - Float64.finite payload.Amount) :
    servePosts (m, [])
        [⟨o1, now1, if type = .DEBIT then "debit" else "credit", .parsed payload⟩,
         ⟨o2, now2, if type = .DEBIT then "debit" else "credit", .parsed payload⟩] =
      ({ accounts := setBalance m.accounts payload.AccountId
            (if type = .DEBIT
              then account.Balance - Float64.finite payload.Amount - Float64.finite payload.Amount
              else account.Balance + Float64.finite payload.Amount + Float64.finite payload.Amount)
         transactions := m.transactions ++
            [⟨payload.Reference, payload.AccountId, payload.Amount, type, .SUCCESS, now1⟩,
             ⟨payload.Reference, payload.AccountId, payload.Amount, type, .SUCCESS, now2⟩] },
       [Call.GetAccountByID payload.AccountId,
        Call.CreateTransaction
          ⟨payload.Reference, payload.AccountId, payload.Amount, type, .SUCCESS, now1⟩,
        Call.UpdateAccountBalance payload.AccountId
          (if type = .DEBIT then account.Balance - Float64.finite payload.Amount
            else account.Balance + Float64.finite payload.Amount),
        Call.GetAccountByID payload.AccountId,
        Call.CreateTransaction
          ⟨payload.Reference, payload.AccountId, payload.Amount, type, .SUCCESS, now2⟩,
        Call.UpdateAccountBalance payload.AccountId
          (if type = .DEBIT
            then account.Balance - Float64.finite payload.Amount - Float64.finite payload.Amount
            else account.Balance + Float64.finite payload.Amount +
              Float64.finite payload.Amount)]) ∧
    (PostPaymentHandler (recording (New o1)) now1 (if type = .DEBIT then "debit" else "credit")
        (.parsed payload) NewRecorder (m, [])).1 =
      ⟨[("Content-Type", "application/json")], some StatusOK,
        [.paymentObject payload.AccountId payload.Reference payload.Amount]⟩ ∧
    (PostPaymentHandler (recording (New o2)) now2 (if type = .DEBIT then "debit" else "credit")
        (.parsed payload) NewRecorder
        (servePosts (m, [])
          [⟨o1, now1, if type = .DEBIT then "debit" else "credit", .parsed payload⟩])).1 =
      ⟨[("Content-Type", "application/json")], some StatusOK,
        [.paymentObject payload.AccountId payload.Reference payload.Amount]⟩ ∧
    (∀ x : Float64, (setBalance m.accounts payload.AccountId x).find?
        (fun a => a.AccountID == payload.AccountId) = some { account with Balance := x }) := by
  obtain ⟨hi1, hu1⟩ := hw1
  obtain ⟨hf2, hi2, hu2⟩ := hw2
  have hfind := (getAccount_ok hacc).2.1
  have hacc2 : ∀ (x : Float64) (ty : TransactionType),
      mongodbStore.GetAccountByID o2 payload.AccountId
        ⟨setBalance m.accounts payload.AccountId x,
          m.transactions ++ [⟨payload.Reference, payload.AccountId, payload.Amount, ty,
            .SUCCESS, now1⟩]⟩ =
      (.ok { account with Balance := x },
        ⟨setBalance m.accounts payload.AccountId x,
          m.transactions ++ [⟨payload.Reference, payload.AccountId, payload.Amount, ty,
            .SUCCESS, now1⟩]⟩) :=
    fun x _ => getAccount_of_find hf2 (find_setBalance x hfind)
  refine ⟨?_, ?_, ?_, fun x => find_setBalance x hfind⟩
  · cases type with
    | DEBIT =>
      obtain ⟨hle1, hle2⟩ := hle rfl
      have hacc2 := hacc2 (account.Balance - Float64.finite payload.Amount) .DEBIT
      simp only [servePosts, if_pos]
      rw [post_debit o1 m [] now1 payload account hacc (Float64.not_gt_of_le hle1), hi1, hu1]
      simp only [List.nil_append]
      rw [post_debit o2 _ _ now2 payload _ hacc2 (Float64.not_gt_of_le hle2), hi2, hu2]
      simp only [setBalance_setBalance, List.append_assoc, List.cons_append, List.nil_append]
    | CREDIT =>
      have hacc2 := hacc2 (account.Balance + Float64.finite payload.Amount) .CREDIT
      simp only [servePosts, if_neg, reduceCtorEq, not_false_eq_true]
      rw [post_credit o1 m [] now1 payload account hacc, hi1, hu1]
      simp only [List.nil_append]
      rw [post_credit o2 _ _ now2 payload _ hacc2, hi2, hu2]
      simp only [setBalance_setBalance, List.append_assoc, List.cons_append, List.nil_append]
  · cases type with
    | DEBIT =>
      rw [if_pos rfl, post_debit o1 m [] now1 payload account hacc
        (Float64.not_gt_of_le (hle rfl).1), hi1, hu1]
      simp [StatusOK]
    | CREDIT =>
      rw [if_neg (by decide), post_credit o1 m [] now1 payload account hacc, hi1, hu1]
      simp [StatusOK]
  · cases type with
    | DEBIT =>
      obtain ⟨hle1, hle2⟩ := hle rfl
      have hacc2 := hacc2 (account.Balance - Float64.finite payload.Amount) .DEBIT
      simp only [servePosts, if_pos]
      rw [post_debit o1 m [] now1 payload account hacc (Float64.not_gt_of_le hle1), hi1, hu1]
      simp only [List.nil_append]
      rw [post_debit o2 _ _ now2 payload _ hacc2 (Float64.not_gt_of_le hle2), hi2, hu2]
      simp [StatusOK]
    | CREDIT =>
      have hacc2 := hacc2 (account.Balance + Float64.finite payload.Amount) .CREDIT
      simp only [servePosts, if_neg, reduceCtorEq, not_false_eq_true]
      rw [post_credit o1 m [] now1 payload account hacc, hi1, hu1]
      simp only [List.nil_append]
      rw [post_credit o2 _ _ now2 payload _ hacc2, hi2, hu2]
      simp [StatusOK]

/-- C10 (amended) at balance 10 and a credit of 1.50 with reference `ref-001`
served twice: two transactions `ref-001` in the ledger and balance 13. -/
theorem C10_no_idempotency_witness :
    servePosts (⟨[⟨"acc_001", .dyadic 10 0, 0⟩], []⟩, [])
        [⟨DriverOutcome.allOk, 1700000000, "credit", .parsed ⟨"acc_001", "ref-001", .dyadic 3 1⟩⟩,
         ⟨DriverOutcome.allOk, 1700000001, "credit", .parsed ⟨"acc_001", "ref-001", .dyadic 3 1⟩⟩] =
      (⟨[⟨"acc_001", .dyadic 13 0, 0⟩],
        [⟨"ref-001", "acc_001", .dyadic 3 1, .CREDIT, .SUCCESS, 1700000000⟩,
         ⟨"ref-001", "acc_001", .dyadic 3 1, .CREDIT, .SUCCESS, 1700000001⟩]⟩,
       [Call.GetAccountByID "acc_001",
        Call.CreateTransaction ⟨"ref-001", "acc_001", .dyadic 3 1, .CREDIT, .SUCCESS, 1700000000⟩,
        Call.UpdateAccountBalance "acc_001" (.dyadic 23 1),
        Call.GetAccountByID "acc_001",
        Call.CreateTransaction ⟨"ref-001", "acc_001", .dyadic 3 1, .CREDIT, .SUCCESS, 1700000001⟩,
        Call.UpdateAccountBalance "acc_001" (.dyadic 13 0)]) := by
  have h := (C10_no_idempotency DriverOutcome.allOk DriverOutcome.allOk
    ⟨[⟨"acc_001", .dyadic 10 0, 0⟩], []⟩ 1700000000 1700000001 .CREDIT
    ⟨"acc_001", "ref-001", .dyadic 3 1⟩ ⟨"acc_001", .dyadic 10 0, 0⟩ rfl ⟨rfl, rfl⟩
    ⟨rfl, rfl, rfl⟩ (fun h => by cases h)).1
  exact h.trans (by decide)

/-- C11 (as stated) fails: a request of kind `DEBIT` (not `debit`) for an
account the store does not hold is answered 404 with the payload
`{errorMessage: "account not found"}`, so a response payload is written. -/
theorem C11_unrecognized_kind_counterexample :
    "DEBIT" ≠ "debit" ∧ "DEBIT" ≠ "credit" ∧
    PostPaymentHandler (recording (New DriverOutcome.allOk)) 1700000000 "DEBIT"
        (.parsed ⟨"acc_001", "ref-001", .dyadic 3 1⟩) NewRecorder
        (⟨[⟨"acc_002", .dyadic 10 0, 0⟩], []⟩, []) =
      (⟨[("Content-Type", "application/json")], some 404,
          [.errorObject "account not found"]⟩,
        (⟨[⟨"acc_002", .dyadic 10 0, 0⟩], []⟩, [Call.GetAccountByID "acc_001"])) ∧
    (⟨[("Content-Type", "application/json")], some 404,
        [.errorObject "account not found"]⟩ : ResponseWriter).Body ≠ [] := by
  refine ⟨by decide, by decide, ?_, by simp⟩
  exact post_account_error DriverOutcome.allOk ⟨[⟨"acc_002", .dyadic 10 0, 0⟩], []⟩ [] 1700000000
    "DEBIT" ⟨"acc_001", "ref-001", .dyadic 3 1⟩ ErrNoDocuments rfl

/-- C11 (amended). For a request with a parsed body whose kind is any string
other than exactly `debit` or `credit`, and for every database and driver
outcome: the handler's only store call is the account lookup, so it performs
no transaction insert and no balance update and leaves the database as it
was; when the lookup returns an account it writes nothing at all to the
response (no header, no status, no payload), and when the lookup fails it
responds 404 with `{errorMessage: "account not found"}`. -/
theorem C11_unrecognized_kind (o : DriverOutcome) (m : Database) (now : Int)
    (paymentType : String) (payload : PostPaymentRequestPayload)
    (hd : paymentType ≠ "debit") (hc : paymentType ≠ "credit") :
    (PostPaymentHandler (recording (New o)) now paymentType (.parsed payload) NewRecorder
        (m, [])).2 = (m, [Call.GetAccountByID payload.AccountId]) ∧
    (∀ account, mongodbStore.GetAccountByID o payload.AccountId m = (.ok account, m) →
      (PostPaymentHandler (recording (New o)) now paymentType (.parsed payload) NewRecorder
        (m, [])).1 = ⟨[], none, []⟩) ∧
    (∀ e, mongodbStore.GetAccountByID o payload.AccountId m = (.error e, m) →
      (PostPaymentHandler (recording (New o)) now paymentType (.parsed payload) NewRecorder
        (m, [])).1 =
        ⟨[("Content-Type", "application/json")], some StatusNotFound,
          [.errorObject "account not found"]⟩) := by
  refine ⟨?_, fun account ha => ?_, fun e he => ?_⟩
  · rcases getAccount_cases o payload.AccountId m with ⟨e, he⟩ | ⟨account, ha⟩
    · rw [post_account_error o m [] now paymentType payload e he]
      rfl
    · rw [post_other_kind o m [] now paymentType payload account ha hd hc]
      rfl
  · rw [post_other_kind o m [] now paymentType payload account ha hd hc]
    rfl
  · rw [post_account_error o m [] now paymentType payload e he]
    rfl

/-- C11 (amended) for the kinds `""`, `DEBIT` and `Credit` on a stored account
with balance 10: nothing is written to the response and the only store call is
the lookup. -/
theorem C11_unrecognized_kind_witness :
    PostPaymentHandler (recording (New DriverOutcome.allOk)) 1700000000 ""
        (.parsed ⟨"acc_001", "ref-001", .dyadic 3 1⟩) NewRecorder
        (⟨[⟨"acc_001", .dyadic 10 0, 0⟩], []⟩, []) =
      (⟨[], none, []⟩, (⟨[⟨"acc_001", .dyadic 10 0, 0⟩], []⟩, [Call.GetAccountByID "acc_001"])) ∧
    PostPaymentHandler (recording (New DriverOutcome.allOk)) 1700000000 "DEBIT"
        (.parsed ⟨"acc_001", "ref-001", .dyadic 3 1⟩) NewRecorder
        (⟨[⟨"acc_001", .dyadic 10 0, 0⟩], []⟩, []) =
      (⟨[], none, []⟩, (⟨[⟨"acc_001", .dyadic 10 0, 0⟩], []⟩, [Call.GetAccountByID "acc_001"])) ∧
    PostPaymentHandler (recording (New DriverOutcome.allOk)) 1700000000 "Credit"
        (.parsed ⟨"acc_001", "ref-001", .dyadic 3 1⟩) NewRecorder
        (⟨[⟨"acc_001", .dyadic 10 0, 0⟩], []⟩, []) =
      (⟨[], none, []⟩, (⟨[⟨"acc_001", .dyadic 10 0, 0⟩], []⟩, [Call.GetAccountByID "acc_001"])) := by
  have h := fun (k : String) (hd : k ≠ "debit") (hc : k ≠ "credit") =>
    C11_unrecognized_kind DriverOutcome.allOk ⟨[⟨"acc_001", .dyadic 10 0, 0⟩], []⟩ 1700000000 k
      ⟨"acc_001", "ref-001", .dyadic 3 1⟩ hd hc
  exact ⟨Prod.ext ((h "" (by decide) (by decide)).2.1 ⟨"acc_001", .dyadic 10 0, 0⟩ rfl)
      (h "" (by decide) (by decide)).1,
    Prod.ext ((h "DEBIT" (by decide) (by decide)).2.1 ⟨"acc_001", .dyadic 10 0, 0⟩ rfl)
      (h "DEBIT" (by decide) (by decide)).1,
    Prod.ext ((h "Credit" (by decide) (by decide)).2.1 ⟨"acc_001", .dyadic 10 0, 0⟩ rfl)
      (h "Credit" (by decide) (by decide)).1⟩

/-- C12. Lost update under interleaving: two credits of `A1` and `A2` (with
references `ref1`, `ref2`) on the same found account with balance `B`, each
run as the steps read-account, insert-transaction, write-balance with every
driver call going through.  Under the schedule read1, read2, insert1, insert2,
write1, write2 both runs are answered 200, both `SUCCESS` transactions are in
the ledger, and the stored balance is `B + A2`; with the two writes swapped it
is `B + A1`.  The same two requests served one after the other leave
`(B + A1) + A2`, which is another balance: at `B = 10`, `A1 = 1.50`, `A2 = 2`
the interleaved runs leave 12 or 11.50 and the sequential ones 13.50.  Each
run taken alone through its three steps is `PostPaymentHandler`.  `+` is the
`float64` addition. -/
theorem C12_lost_update (o1 o2 : DriverOutcome) (m : Database) (now1 now2 : Int)
    (accountId ref1 ref2 : String) (A1 A2 : Finite64) (account : Account)
    (hacc1 : mongodbStore.GetAccountByID o1 accountId m = (.ok account, m))
    (hacc2 : mongodbStore.GetAccountByID o2 accountId m = (.ok account, m))
    (hw1 : o1.insertTransaction = none ∧ o1.updateAccount = none)
    (hw2 : o2.insertTransaction = none ∧ o2.updateAccount = none) :
    interleave ⟨o1, now1, "credit", .parsed ⟨accountId, ref1, A1⟩⟩
        ⟨o2, now2, "credit", .parsed ⟨accountId, ref2, A2⟩⟩
        [.first, .second, .first, .second, .first, .second]
        ((.entered, .entered), (m, [])) =
      ((.returned ⟨[("Content-Type", "application/json")], some StatusOK,
          [.paymentObject accountId ref1 A1]⟩,
        .returned ⟨[("Content-Type", "application/json")], some StatusOK,
          [.paymentObject accountId ref2 A2]⟩),
       ({ accounts := setBalance m.accounts accountId (account.Balance + Float64.finite A2)
          transactions := m.transactions ++
            [⟨ref1, accountId, A1, .CREDIT, .SUCCESS, now1⟩,
             ⟨ref2, accountId, A2, .CREDIT, .SUCCESS, now2⟩] },
        [Call.GetAccountByID accountId, Call.GetAccountByID accountId,
         Call.CreateTransaction ⟨ref1, accountId, A1, .CREDIT, .SUCCESS, now1⟩,
         Call.CreateTransaction ⟨ref2, accountId, A2, .CREDIT, .SUCCESS, now2⟩,
         Call.UpdateAccountBalance accountId (account.Balance + Float64.finite A1),
         Call.UpdateAccountBalance accountId (account.Balance + Float64.finite A2)])) ∧
    interleave ⟨o1, now1, "credit", .parsed ⟨accountId, ref1, A1⟩⟩
        ⟨o2, now2, "credit", .parsed ⟨accountId, ref2, A2⟩⟩
        [.first, .second, .first, .second, .second, .first]
        ((.entered, .entered), (m, [])) =
      ((.returned ⟨[("Content-Type", "application/json")], some StatusOK,
          [.paymentObject accountId ref1 A1]⟩,
        .returned ⟨[("Content-Type", "application/json")], some StatusOK,
          [.paymentObject accountId ref2 A2]⟩),
       ({ accounts := setBalance m.accounts accountId (account.Balance + Float64.finite A1)
          transactions := m.transactions ++
            [⟨ref1, accountId, A1, .CREDIT, .SUCCESS, now1⟩,
             ⟨ref2, accountId, A2, .CREDIT, .SUCCESS, now2⟩] },
        [Call.GetAccountByID accountId, Call.GetAccountByID accountId,
         Call.CreateTransaction ⟨ref1, accountId, A1, .CREDIT, .SUCCESS, now1⟩,
         Call.CreateTransaction ⟨ref2, accountId, A2, .CREDIT, .SUCCESS, now2⟩,
         Call.UpdateAccountBalance accountId (account.Balance + Float64.finite A2),
         Call.UpdateAccountBalance accountId (account.Balance + Float64.finite A1)])) ∧
    (∀ x : Float64, (setBalance m.accounts accountId x).find? (fun a => a.AccountID == accountId) =
      some { account with Balance := x }) ∧
    (servePosts (m, []) [⟨o1, now1, "credit", .parsed ⟨accountId, ref1, A1⟩⟩,
        ⟨o2, now2, "credit", .parsed ⟨accountId, ref2, A2⟩⟩]).1 =
      { accounts := setBalance m.accounts accountId (account.Balance + Float64.finite A1 + Float64.finite A2)
        transactions := m.transactions ++
          [⟨ref1, accountId, A1, .CREDIT, .SUCCESS, now1⟩,
           ⟨ref2, accountId, A2, .CREDIT, .SUCCESS, now2⟩] } ∧
    Float64.dyadic 10 0 + Float64.dyadic 2 0 ≠
      Float64.dyadic 10 0 + Float64.dyadic 3 1 + Float64.dyadic 2 0 ∧
    Float64.dyadic 10 0 + Float64.dyadic 3 1 ≠
      Float64.dyadic 10 0 + Float64.dyadic 3 1 + Float64.dyadic 2 0 ∧
    (∀ (now : Int) (paymentType : String) (body : RequestBody) (o : DriverOutcome)
      (s : Database × List Call),
      PostPaymentHandler.steps (recording (New o)) now paymentType body NewRecorder s =
        (.returned (PostPaymentHandler (recording (New o)) now paymentType body NewRecorder s).1,
          (PostPaymentHandler (recording (New o)) now paymentType body NewRecorder s).2)) := by
  obtain ⟨hi1, hu1⟩ := hw1
  obtain ⟨hi2, hu2⟩ := hw2
  have hid := getAccount_ok_id hacc1
  have hfind := (getAccount_ok hacc1).2.1
  refine ⟨?_, ?_, fun x => find_setBalance x hfind, ?_, ?_, ?_,
    fun now paymentType body o s => steps_eq_handler _ now paymentType body NewRecorder s⟩
  · simp only [interleave]
    rw [step_read o1 m [] now1 "credit" ⟨accountId, ref1, A1⟩ account hacc1]
    rw [step_read o2 m _ now2 "credit" ⟨accountId, ref2, A2⟩ account hacc2]
    rw [step_insert_credit o1 _ _ now1 _ _ account hi1]
    rw [step_insert_credit o2 _ _ now2 _ _ account hi2]
    rw [step_write o1 _ _ now1 _ _ _ account _ hu1]
    rw [step_write o2 _ _ now2 _ _ _ account _ hu2]
    simp [setBalance_setBalance, hid, StatusOK]
  · simp only [interleave]
    rw [step_read o1 m [] now1 "credit" ⟨accountId, ref1, A1⟩ account hacc1]
    rw [step_read o2 m _ now2 "credit" ⟨accountId, ref2, A2⟩ account hacc2]
    rw [step_insert_credit o1 _ _ now1 _ _ account hi1]
    rw [step_insert_credit o2 _ _ now2 _ _ account hi2]
    rw [step_write o2 _ _ now2 _ _ _ account _ hu2]
    rw [step_write o1 _ _ now1 _ _ _ account _ hu1]
    simp [setBalance_setBalance, hid, StatusOK]
  · have hacc2b : mongodbStore.GetAccountByID o2 accountId
        ⟨setBalance m.accounts accountId (account.Balance + Float64.finite A1),
          m.transactions ++ [⟨ref1, accountId, A1, .CREDIT, .SUCCESS, now1⟩]⟩ =
        (.ok { account with Balance := account.Balance + Float64.finite A1 },
          ⟨setBalance m.accounts accountId (account.Balance + Float64.finite A1),
            m.transactions ++ [⟨ref1, accountId, A1, .CREDIT, .SUCCESS, now1⟩]⟩) :=
      getAccount_of_find (getAccount_ok hacc2).1 (find_setBalance _ hfind)
    simp only [servePosts]
    rw [post_credit o1 m [] now1 ⟨accountId, ref1, A1⟩ account hacc1, hi1, hu1]
    simp only [List.nil_append]
    rw [post_credit o2 _ _ now2 ⟨accountId, ref2, A2⟩ _ hacc2b, hi2, hu2]
    simp [setBalance_setBalance]
  · decide
  · decide

/-- C12 at balance 10 with credits of 1.50 (`ref-001`) and 2 (`ref-002`)
interleaved read1, read2, insert1, insert2, write1, write2: both
transactions are stored and the balance is 12, not 13.50. -/
theorem C12_lost_update_witness :
    interleave ⟨DriverOutcome.allOk, 1700000000, "credit", .parsed ⟨"acc_001", "ref-001", .dyadic 3 1⟩⟩
        ⟨DriverOutcome.allOk, 1700000001, "credit", .parsed ⟨"acc_001", "ref-002", .dyadic 2 0⟩⟩
        [.first, .second, .first, .second, .first, .second]
        ((.entered, .entered), (⟨[⟨"acc_001", .dyadic 10 0, 0⟩], []⟩, [])) =
      ((.returned ⟨[("Content-Type", "application/json")], some 200,
          [.paymentObject "acc_001" "ref-001" (.dyadic 3 1)]⟩,
        .returned ⟨[("Content-Type", "application/json")], some 200,
          [.paymentObject "acc_001" "ref-002" (.dyadic 2 0)]⟩),
       (⟨[⟨"acc_001", .dyadic 12 0, 0⟩],
          [⟨"ref-001", "acc_001", .dyadic 3 1, .CREDIT, .SUCCESS, 1700000000⟩,
           ⟨"ref-002", "acc_001", .dyadic 2 0, .CREDIT, .SUCCESS, 1700000001⟩]⟩,
        [Call.GetAccountByID "acc_001", Call.GetAccountByID "acc_001",
         Call.CreateTransaction ⟨"ref-001", "acc_001", .dyadic 3 1, .CREDIT, .SUCCESS, 1700000000⟩,
         Call.CreateTransaction ⟨"ref-002", "acc_001", .dyadic 2 0, .CREDIT, .SUCCESS, 1700000001⟩,
         Call.UpdateAccountBalance "acc_001" (.dyadic 23 1),
         Call.UpdateAccountBalance "acc_001" (.dyadic 12 0)])) := by
  have h := (C12_lost_update DriverOutcome.allOk DriverOutcome.allOk
    ⟨[⟨"acc_001", .dyadic 10 0, 0⟩], []⟩ 1700000000 1700000001 "acc_001" "ref-001" "ref-002"
    (.dyadic 3 1) (.dyadic 2 0) ⟨"acc_001", .dyadic 10 0, 0⟩ rfl rfl ⟨rfl, rfl⟩ ⟨rfl, rfl⟩).1
  exact h.trans (by decide)

/-- C13. Non-negative balance invariant: when every stored account document
with id `accountId` has balance `≥ 0`, then for every finite sequence of
`PostPaymentHandler` calls served one after the other (any kinds, bodies and
driver outcomes) in which every credit to `accountId` has amount `≥ 0` (a
debit may have an amount of any sign), after every call of the sequence the
stored balance of `accountId` is `≥ 0`, every balance written to it by
`UpdateAccountBalance` so far is `≥ 0`, and an account lookup returns a
balance `≥ 0`. -/
theorem C13_non_negative_balance (accountId : String) (m : Database) (cs : List PostCall)
    (hm : ∀ a ∈ m.accounts, a.AccountID = accountId → 0 ≤ a.Balance)
    (hcs : ∀ c ∈ cs, ∀ payload, c.body = .parsed payload → payload.AccountId = accountId →
      c.paymentType = "credit" → (0 : Float64) ≤ Float64.finite payload.Amount) (n : Nat) :
    (∀ a ∈ (servePosts (m, []) (cs.take n)).1.accounts,
      a.AccountID = accountId → 0 ≤ a.Balance) ∧
    (∀ x, Call.UpdateAccountBalance accountId x ∈ (servePosts (m, []) (cs.take n)).2 →
      0 ≤ x) ∧
    (∀ (o : DriverOutcome) (account : Account),
      mongodbStore.GetAccountByID o accountId (servePosts (m, []) (cs.take n)).1 =
        (.ok account, (servePosts (m, []) (cs.take n)).1) →
      0 ≤ account.Balance) := by
  have h := servePosts_nonneg accountId (cs.take n) (m, []) hm (fun x hx => by simp at hx)
    (fun c hc => hcs c (List.mem_of_mem_take hc))
  refine ⟨h.1, h.2, fun o account hacc => ?_⟩
  exact h.1 account (List.mem_of_find?_eq_some (getAccount_ok hacc).2.1) (getAccount_ok_id hacc)

/-- C13 on balance 10 with a debit of 1.50, a credit of 2 and a debit of `-5`:
the stored balance stays non-negative. -/
theorem C13_non_negative_balance_witness :
    (∀ a ∈ [(⟨"acc_001", .dyadic 10 0, 0⟩ : Account)], a.AccountID = "acc_001" → 0 ≤ a.Balance) ∧
    (∀ a ∈ (servePosts (⟨[⟨"acc_001", .dyadic 10 0, 0⟩], []⟩, [])
        [⟨DriverOutcome.allOk, 1700000000, "debit", .parsed ⟨"acc_001", "ref-001", .dyadic 3 1⟩⟩,
         ⟨DriverOutcome.allOk, 1700000001, "credit", .parsed ⟨"acc_001", "ref-002", .dyadic 2 0⟩⟩,
         ⟨DriverOutcome.allOk, 1700000002, "debit", .parsed ⟨"acc_001", "ref-003", .dyadic (-5) 0⟩⟩]).1.accounts,
      a.AccountID = "acc_001" → 0 ≤ a.Balance) := by
  have hm : ∀ a ∈ [(⟨"acc_001", .dyadic 10 0, 0⟩ : Account)], a.AccountID = "acc_001" → 0 ≤ a.Balance := by
    intro a ha _
    rw [List.mem_singleton.mp ha]
    decide
  refine ⟨hm, ?_⟩
  have h := (C13_non_negative_balance "acc_001" ⟨[⟨"acc_001", .dyadic 10 0, 0⟩], []⟩
    [⟨DriverOutcome.allOk, 1700000000, "debit", .parsed ⟨"acc_001", "ref-001", .dyadic 3 1⟩⟩,
     ⟨DriverOutcome.allOk, 1700000001, "credit", .parsed ⟨"acc_001", "ref-002", .dyadic 2 0⟩⟩,
     ⟨DriverOutcome.allOk, 1700000002, "debit", .parsed ⟨"acc_001", "ref-003", .dyadic (-5) 0⟩⟩]
    hm
    (by
      intro c hc payload hb _ hk
      simp only [List.mem_cons, List.mem_singleton, List.not_mem_nil, or_false] at hc
      rcases hc with rfl | rfl | rfl
      · exact absurd hk (by decide)
      · simp only [RequestBody.parsed.injEq] at hb
        rw [← hb]
        decide
      · exact absurd hk (by decide))
    3).1
  exact h

end ThirdParty
